import Mathlib

/-!
Verification development for the manim-pro animation job server.

The Python sources under `src/` are shallowly embedded below:
pure string manipulation is modelled over `List Char` (Python strings are
sequences of code points; the classifier/case functions are modelled over
the ASCII range, which is what `Char.isAlphanum`, `Char.toUpper`,
`Char.toLower` implement), the Redis job store, the SQLite animations
table, the jobs-directory mirror and the scripts directory are modelled as
association lists inside an explicit system state, and the external
collaborators (Gemini text generation, TTS synthesis, the manim render
subprocess, the wall clock) are passed in as parameters describing their
outcome for the run under consideration.
-/

namespace ManimPro

/-! ### Python string primitives over `List Char` -/

/-- Python `str.split()` with no argument: split on runs of whitespace,
discarding empty words.  `acc` holds the current word reversed. -/
def splitWsAux (l : List Char) (acc : List Char) : List (List Char) :=
  match l with
  | [] => if acc.isEmpty then [] else [acc.reverse]
  | c :: rest =>
    if c.isWhitespace then
      if acc.isEmpty then splitWsAux rest [] else acc.reverse :: splitWsAux rest []
    else splitWsAux rest (c :: acc)

/-- Python `str.split()` (no separator argument). -/
def pySplitWs (l : List Char) : List (List Char) := splitWsAux l []

/-- Python `str.capitalize()` over the ASCII range: first character
uppercased, all remaining characters lowercased. -/
def pyCapitalize (w : List Char) : List Char :=
  match w with
  | [] => []
  | c :: cs => c.toUpper :: cs.map Char.toLower

/-- Python `str.strip()` with no argument: drop leading and trailing
whitespace. -/
def pyStrip (l : List Char) : List Char :=
  ((l.dropWhile Char.isWhitespace).reverse.dropWhile Char.isWhitespace).reverse

/-- Python `str.strip(q)` for a single strip character `q`: drop leading and
trailing occurrences of `q`. -/
def pyStripChar (q : Char) (l : List Char) : List Char :=
  ((l.dropWhile (· = q)).reverse.dropWhile (· = q)).reverse

/-- Worker for `pyReplace`, structurally recursive on a fuel bound (one unit
of fuel is spent per character position, which suffices because the patterns
used by the source are nonempty). -/
def replaceAllAux (pat repl : List Char) : Nat → List Char → List Char
  | _, [] => []
  | 0, s => s
  | fuel + 1, c :: rest =>
    if pat.isPrefixOf (c :: rest) then
      repl ++ replaceAllAux pat repl fuel ((c :: rest).drop pat.length)
    else
      c :: replaceAllAux pat repl fuel rest

/-- Python `str.replace(pat, repl)` for a nonempty pattern (all call sites in
the source use nonempty patterns). -/
def pyReplace (s pat repl : List Char) : List Char :=
  if pat.isEmpty then s else replaceAllAux pat repl s.length s

/-- Worker for `pySplitSep`; fuel as in `replaceAllAux`. -/
def splitSepAux (sep : List Char) : Nat → List Char → List Char → List (List Char)
  | _, [], acc => [acc.reverse]
  | 0, s, acc => [acc.reverse ++ s]
  | fuel + 1, c :: rest, acc =>
    if sep.isPrefixOf (c :: rest) then
      acc.reverse :: splitSepAux sep fuel ((c :: rest).drop sep.length) []
    else
      splitSepAux sep fuel rest (c :: acc)

/-- Python `str.split(sep)` for a nonempty separator. -/
def pySplitSep (s sep : List Char) : List (List Char) := splitSepAux sep s.length s []

/-- Python `sep.join(parts)` for the separator `". "` used by the narration
truncation code. -/
def joinDotSpace : List (List Char) → List Char
  | [] => []
  | [s] => s
  | s :: rest => s ++ '.' :: ' ' :: joinDotSpace rest

/-- Python `s.endswith('.')`. -/
def endsWithDot (l : List Char) : Bool :=
  match l.getLast? with
  | some c => c = '.'
  | none => false

/-! ### `sanitize_class_name` (src/utilities.py) -/

/-- The non-ASCII code points this development distinguishes: the
superscript digits ¹, ², ³ (U+00B9, U+00B2, U+00B3, Unicode category No).
Python's `str.isalnum` and `str.isdigit` are true of them, yet they are
not identifier characters: `'²'.isalnum()` is `True` while a name
containing `²` fails `str.isidentifier()`. -/
def superscriptDigits : List Nat := [0xB9, 0xB2, 0xB3]

/-- Python `str.isalnum` for one character: the ASCII alphanumerics
together with the superscript digits.  Python counts every Unicode
letter/numeric character as alphanumeric; on the ASCII range this agrees
with `Char.isAlphanum` exactly, and the superscripts are the non-ASCII
alphanumerics this development exercises. -/
def pyIsAlnum (c : Char) : Bool :=
  c.isAlphanum || superscriptDigits.contains c.toNat

/-- Python `str.isdigit` for one character over the same domain: the ASCII
digits together with the superscript digits (Unicode numeric-digit
characters are `isdigit` in Python). -/
def pyIsDigit (c : Char) : Bool :=
  c.isDigit || superscriptDigits.contains c.toNat

/-- The intermediate `class_name` of `sanitize_class_name`: keep
alphanumeric and whitespace characters (everything else becomes a space),
split into words, capitalize each word and concatenate. -/
def buildClassName (topic : List Char) : List Char :=
  let kept := topic.map (fun c => if pyIsAlnum c || c.isWhitespace then c else ' ')
  ((pySplitWs kept).map pyCapitalize).flatten

/-- `sanitize_class_name` from src/utilities.py. -/
def sanitize_class_name (topic : List Char) : List Char :=
  match buildClassName topic with
  | [] => "Animation".data ++ "Scene".data
  | c :: cs =>
    if pyIsDigit c then "Anim".data ++ (c :: cs) ++ "Scene".data
    else (c :: cs) ++ "Scene".data

/-- Python `str.isidentifier`: nonempty, the first character in XID_Start
or an underscore, the rest in XID_Continue or an underscore.  Over the
modelled domain (ASCII plus the superscript digits) the XID classes are
exactly the ASCII letters and digits — the superscript digits are *not*
identifier characters. -/
def isValidPyIdent (s : List Char) : Bool :=
  match s with
  | [] => false
  | c :: cs => (c.isAlpha || c = '_') && cs.all (fun d => d.isAlphanum || d = '_')

/-! ### Narration text stage (src/tts_service.py) -/

/-- `get_narration_length_for_level` from src/tts_service.py: the
(min_chars, max_chars) character range for a grade level. -/
def get_narration_length_for_level (level : Int) : Nat × Nat :=
  if level ≤ 5 then (200, 350)
  else if level ≤ 8 then (300, 500)
  else if level ≤ 10 then (400, 650)
  else (500, 800)

/-- The apostrophe character (the Python literal in `strip("'")`). -/
def apostrophe : Char := Char.ofNat 39

/-- The cleanup chain of `generate_narration_text`: strip whitespace, remove
markdown emphasis, strip surrounding quotes, remove backticks. -/
def cleanNarration (raw : List Char) : List Char :=
  let n := pyStrip raw
  let n := pyReplace n "**".data []
  let n := pyReplace n "*".data []
  let n := pyStripChar '"' n
  let n := pyStripChar apostrophe n
  let n := pyReplace n "```".data []
  pyReplace n "`".data []

/-- The sentence-collection loop of `generate_narration_text`: keep taking
sentences while the accumulated length (each sentence counted with its
`". "` separator) stays within `maxChars`, stopping at the first overflow. -/
def collectSentences (maxChars : Nat) : List (List Char) → Nat → List (List Char)
  | [], _ => []
  | s :: rest, cur =>
    if cur + s.length + 2 ≤ maxChars then
      s :: collectSentences maxChars rest (cur + s.length + 2)
    else []

/-- Append a final period unless the text already ends with one. -/
def dotTerminate (n2 : List Char) : List Char :=
  if endsWithDot n2 then n2 else n2 ++ ['.']

/-- The length-enforcement step of `generate_narration_text`: when the
cleaned text exceeds `maxChars`, truncate at sentence boundaries and
re-terminate with a period. -/
def truncateNarration (n : List Char) (maxChars : Nat) : List Char :=
  if n.length > maxChars then
    dotTerminate (joinDotSpace (collectSentences maxChars (pySplitSep n ['.', ' ']) 0))
  else n

/-- Post-processing applied by `generate_narration_text` to the raw
collaborator output. -/
def processNarration (raw : List Char) (level : Int) : List Char :=
  truncateNarration (cleanNarration raw) (get_narration_length_for_level level).2

/-- `generate_narration_text` from src/tts_service.py.  The Gemini call is
the collaborator parameter `collab` (`Except` models raise/return); the
GEMINI_API_KEY presence check is the `apiKeyConfigured` flag.  A
collaborator exception propagates (the source logs and re-raises). -/
def generate_narration_text (apiKeyConfigured : Bool) (level : Int)
    (collab : Except (List Char) (List Char)) : Except (List Char) (List Char) :=
  if apiKeyConfigured = false then
    Except.error "GEMINI_API_KEY not configured".data
  else
    match collab with
    | Except.error e => Except.error e
    | Except.ok raw => Except.ok (processNarration raw level)

/-! ### Job records and the Redis job store (src/redis_client.py) -/

/-- The value held by the `timestamp_numeric` slot of a job dict: absent,
`None`, a number (floats modelled as integers), or a string. -/
inductive TsField
  | missing
  | null
  | num (v : Int)
  | str (s : String)
  deriving DecidableEq

/-- Model of Python `float()` on a string: accepts nonempty all-digit
strings (the shape every numeric string in this development has), rejects
everything else. -/
def pyFloatOfString (s : String) : Option Int :=
  if s.length ≠ 0 ∧ s.data.all Char.isDigit then
    some (Int.ofNat (s.data.foldl (fun acc c => acc * 10 + (c.toNat - 48)) 0))
  else none

/-- Python `float(x)` on a `timestamp_numeric` slot value: numbers convert
to themselves, strings are parsed, `None` (and absence) raise. -/
def floatConvTs : TsField → Option Int
  | TsField.num v => some v
  | TsField.str s => pyFloatOfString s
  | _ => none

/-- The job dict created and mutated by src/helper_service.py, as a fixed
record with optional per-stage fields. -/
structure Job where
  job_id : String
  status : String
  message : String := ""
  topic : String := ""
  topic_id : Int := 0
  subject : String := ""
  subject_id : Int := 0
  chapter : String := ""
  chapter_id : Int := 0
  level : Int := 0
  script : Option String := none
  script_path : Option String := none
  class_name : Option String := none
  video_name : Option String := none
  narration_text : Option String := none
  audio_filename : Option String := none
  audio_duration : Option Int := none
  audio_path : Option String := none
  error : Option String := none
  created_at : String := ""
  updated_at : String := ""
  timestamp_numeric : TsField := TsField.missing
  deriving DecidableEq

/-- Association-list lookup (first binding wins), modelling a key-value
store read. -/
def lookup {α : Type} (l : List (String × α)) (k : String) : Option α :=
  (l.find? (fun e => e.1 = k)).map (fun e => e.2)

/-- Association-list upsert: replace the binding in place if the key exists
(Redis SET / ZADD on an existing member), otherwise append. -/
def upsert {α : Type} (l : List (String × α)) (k : String) (v : α) :
    List (String × α) :=
  match l with
  | [] => [(k, v)]
  | e :: rest => if e.1 = k then (k, v) :: rest else e :: upsert rest k v

/-- The Redis-backed job store: the `job:{id}` keys, the `jobs:list` sorted
set (member, score), and a ghost log of every saved (job id, status) pair
used to observe the order of persisted transitions. -/
structure RedisState where
  kv : List (String × Job)
  zset : List (String × Int)
  saves : List (String × String) := []
  deriving DecidableEq

/-- `RedisClient.save_job` from src/redis_client.py with a healthy
connection: repair `timestamp_numeric` (absent or `None` becomes the
current time, then `float()` conversion, falling back to the current time
on conversion failure), store the record, and add the member to the
`jobs:list` sorted set with the timestamp as score.  `now` models
`time.time()`. -/
def save_job (st : RedisState) (jobId : String) (jobData : Job) (now : Int) :
    RedisState :=
  let ts1 : TsField :=
    match jobData.timestamp_numeric with
    | TsField.missing => TsField.num now
    | TsField.null => TsField.num now
    | t => t
  let score : Int :=
    match floatConvTs ts1 with
    | some v => v
    | none => now
  let stored : Job := { jobData with timestamp_numeric := TsField.num score }
  { kv := upsert st.kv jobId stored
    zset := upsert st.zset jobId score
    saves := st.saves ++ [(jobId, stored.status)] }

/-- `RedisClient.get_job`: absent keys (including TTL-expired ones) read as
`None`. -/
def get_job (st : RedisState) (jobId : String) : Option Job :=
  lookup st.kv jobId

/-- `RedisClient._get_timestamp` from src/redis_client.py (defined in the
source but never invoked by `save_job`): `timestamp_numeric` if convertible,
else parse `created_at`, else the current time.  `parseIso` models
`datetime.fromisoformat(...).timestamp()`. -/
def get_timestamp_fallback (parseIso : String → Option Int) (ts : TsField)
    (created_at : String) (now : Int) : Int :=
  match ts with
  | TsField.missing =>
    match parseIso created_at with
    | some v => v
    | none => now
  | t =>
    match floatConvTs t with
    | some v => v
    | none =>
      match parseIso created_at with
      | some v => v
      | none => now

/-- ZREVRANGE order on (member, score) pairs: score descending, ties broken
by member in reverse lexicographic order. -/
def zrevLe (a b : String × Int) : Prop :=
  b.2 < a.2 ∨ (b.2 = a.2 ∧ b.1 ≤ a.1)

instance : DecidableRel zrevLe := fun a b =>
  decidable_of_iff (b.2 < a.2 ∨ (b.2 = a.2 ∧ b.1 ≤ a.1)) Iff.rfl

instance : IsTotal (String × Int) zrevLe where
  total a b := by
    unfold zrevLe
    rcases lt_trichotomy a.2 b.2 with h | h | h
    · exact Or.inr (Or.inl h)
    · rcases le_total a.1 b.1 with h1 | h1
      · exact Or.inr (Or.inr ⟨h, h1⟩)
      · exact Or.inl (Or.inr ⟨h.symm, h1⟩)
    · exact Or.inl (Or.inl h)

instance : IsTrans (String × Int) zrevLe where
  trans a b c hab hbc := by
    unfold zrevLe at *
    rcases hab with h1 | ⟨h1, h1'⟩ <;> rcases hbc with h2 | ⟨h2, h2'⟩
    · exact Or.inl (h2.trans h1)
    · exact Or.inl (h2 ▸ h1)
    · exact Or.inl (h1 ▸ h2)
    · exact Or.inr ⟨h2.trans h1, h2'.trans h1'⟩

instance : IsAntisymm (String × Int) zrevLe where
  antisymm a b hab hba := by
    unfold zrevLe at *
    rcases hab with h1 | ⟨h1, h1'⟩ <;> rcases hba with h2 | ⟨h2, h2'⟩
    · exact absurd (h1.trans h2) (lt_irrefl _)
    · exact absurd h1 (h2 ▸ lt_irrefl _)
    · exact absurd h2 (h1 ▸ lt_irrefl _)
    · exact Prod.ext (le_antisymm h2' h1') h1.symm

/-- The member list returned by `ZREVRANGE jobs:list 0 -1`. -/
def zrevrange_ids (zset : List (String × Int)) : List String :=
  (List.insertionSort zrevLe zset).map (fun e => e.1)

/-- `RedisClient.get_all_jobs`: walk the sorted set newest-first and fetch
each job, skipping members whose record has expired. -/
def get_all_jobs (st : RedisState) : List Job :=
  (zrevrange_ids st.zset).filterMap (get_job st)

/-! ### The `animations` table (src/database.py) -/

/-- A row of the `animations` table. -/
structure AnimRow where
  level : Int
  subject_id : Int
  subject_name : String := ""
  chapter_id : Int
  chapter_name : String := ""
  topic_id : Int
  topic_name : String := ""
  job_id : String
  video_name : Option String := none
  status : String
  narration_text : Option String := none
  audio_filename : Option String := none
  audio_duration : Option Int := none
  voice_style : Option String := none
  created_at : String := ""
  updated_at : String := ""
  deriving DecidableEq

/-- The `WHERE level = ? AND subject_id = ? AND chapter_id = ? AND
topic_id = ?` condition. -/
def tupleMatches (r : AnimRow) (level subject_id chapter_id topic_id : Int) :
    Bool :=
  r.level = level ∧ r.subject_id = subject_id ∧
    r.chapter_id = chapter_id ∧ r.topic_id = topic_id

/-- Python truthiness of an optional string (`None` and `""` are falsy). -/
def truthy : Option String → Bool
  | none => false
  | some s => s ≠ ""

/-- `AnimationDatabase.check_existing_animation`: the row for the identity
tuple, returned only when its status is `completed`. -/
def check_existing_animation (db : List AnimRow)
    (level subject_id chapter_id topic_id : Int) : Option AnimRow :=
  db.find? (fun r =>
    tupleMatches r level subject_id chapter_id topic_id && r.status == "completed")

/-- `AnimationDatabase.get_animation_by_job_id`. -/
def get_animation_by_job_id (db : List AnimRow) (jobId : String) :
    Option AnimRow :=
  db.find? (fun r => r.job_id == jobId)

/-- `AnimationDatabase.update_animation_status`: update status (and, per the
Python truthiness checks, video/audio fields) of every row whose `job_id`
matches. -/
def update_animation_status (db : List AnimRow) (jobId status : String)
    (video_name audio_filename : Option String) (audio_duration : Option Int)
    (nowIso : String) : List AnimRow :=
  db.map (fun r =>
    if r.job_id == jobId then
      if truthy video_name && truthy audio_filename then
        { r with status := status, video_name := video_name,
                 audio_filename := audio_filename,
                 audio_duration := audio_duration, updated_at := nowIso }
      else if truthy video_name then
        { r with status := status, video_name := video_name,
                 updated_at := nowIso }
      else
        { r with status := status, updated_at := nowIso }
    else r)

/-- `AnimationDatabase.save_animation`: INSERT with
`ON CONFLICT(level, subject_id, chapter_id, topic_id) DO UPDATE`, subject to
the separate UNIQUE constraint on `job_id` (a violation aborts the
statement and the handler swallows the exception, leaving the table
unchanged). -/
def save_animation (db : List AnimRow) (level subject_id : Int)
    (subject_name : String) (chapter_id : Int) (chapter_name : String)
    (topic_id : Int) (topic_name : String) (job_id : String)
    (video_name : Option String) (status : String)
    (narration_text audio_filename : Option String)
    (audio_duration : Option Int) (voice_style : Option String)
    (nowIso : String) : List AnimRow :=
  match db.find? (fun r => tupleMatches r level subject_id chapter_id topic_id) with
  | some _ =>
    if (db.find? (fun r => r.job_id == job_id &&
        !tupleMatches r level subject_id chapter_id topic_id)).isSome then
      db
    else
      db.map (fun r =>
        if tupleMatches r level subject_id chapter_id topic_id then
          { r with job_id := job_id, video_name := video_name, status := status,
                   narration_text := narration_text,
                   audio_filename := audio_filename,
                   audio_duration := audio_duration, voice_style := voice_style,
                   updated_at := nowIso }
        else r)
  | none =>
    if (db.find? (fun r => r.job_id == job_id)).isSome then db
    else
      db ++ [{ level := level, subject_id := subject_id,
               subject_name := subject_name, chapter_id := chapter_id,
               chapter_name := chapter_name, topic_id := topic_id,
               topic_name := topic_name, job_id := job_id,
               video_name := video_name, status := status,
               narration_text := narration_text,
               audio_filename := audio_filename,
               audio_duration := audio_duration, voice_style := voice_style,
               created_at := nowIso, updated_at := nowIso }]

/-! ### System state and helper_service (src/helper_service.py) -/

/-- A file somewhere under MEDIA_ROOT as seen by `Path.rglob`: its absolute
path components, its final name, and whether it is a regular file. -/
structure MFile where
  path : List String
  name : String
  isFile : Bool
  deriving DecidableEq

/-- A ghost record of one pipeline-stage invocation together with the
arguments it received. -/
inductive StageCall
  | narrText (topic subject chapter : String) (level : Int)
  | narrAudio (text jobId : String)
  | scriptGen (topic subject chapter : String) (level : Int)
      (audio_path : String) (audio_duration : Int)
  deriving DecidableEq

/-- The whole persistent state touched by the service: the Redis store, the
JOBS_DIR mirror, the SCRIPTS_DIR files, the `animations` table, and the
media tree (plus a ghost log of stage invocations). -/
structure Sys where
  redis : RedisState
  disk : List (String × Job) := []
  scripts : List (String × String) := []
  db : List AnimRow := []
  mediaExists : Bool := true
  mediaRoot : List String := []
  media : List MFile := []
  calls : List StageCall := []
  deriving DecidableEq

/-- Python `str.lower()` over the ASCII range. -/
def pyLower (s : String) : String := String.mk (s.data.map Char.toLower)

/-- `find_video_file` from src/helper_service.py: the first regular file in
the media tree whose name matches case-insensitively. -/
def find_video_file (mediaExists : Bool) (media : List MFile)
    (filename : String) : Option MFile :=
  if mediaExists = false then none
  else media.find? (fun f => f.isFile && pyLower f.name == pyLower filename)

/-- `sanitize_class_name` lifted to `String`. -/
def sanitizeClassNameStr (topic : String) : String :=
  String.mk (sanitize_class_name topic.data)

/-- `RENDER_TIMEOUT` from src/config.py (seconds). -/
def RENDER_TIMEOUT : Nat := 600

/-- Outcome of the `subprocess.run` call in `render_animation`. -/
inductive ProcOutcome
  | exited (returncode : Int) (stdout : String) (stderr : String)
  | timedOut
  | raised (msg : String)
  deriving DecidableEq

/-- Result dict of `generate_narration_audio` (src/tts_service.py),
produced by the TTS collaborator. -/
structure AudioInfo where
  audio_path : String
  audio_filename : String
  duration : Int
  file_size : Int := 0
  voice_style : String := "M1"
  sample_rate : Int := 0
  deriving DecidableEq

/-- Result dict of `create_animation_job` / `retry_job`. -/
structure CreateResult where
  job_id : String
  script : String
  script_path : String
  class_name : String
  narration_text : String := ""
  audio_duration : Int := 0
  deriving DecidableEq

/-- `render_animation` from src/helper_service.py: mark the job `rendering`
(when it is still in the store), run the manim subprocess, then finalize to
`completed` or `failed`.  `nowIso` models `datetime.now().isoformat()` and
`now` models `time.time()` for the run. -/
def render_animation (sys : Sys) (jobId : String) (class_name : String)
    (proc : ProcOutcome) (nowIso : String) (now : Int) : Sys :=
  match get_job sys.redis jobId with
  | none =>
    -- `job` is None: the pre-update is skipped, and every post-subprocess
    -- branch is a no-op (`if job:` fails; the timeout/except handlers
    -- re-fetch and also find nothing).
    sys
  | some j0 =>
    let j1 : Job :=
      { j0 with
        status := "rendering",
        message := "Rendering animation with audio...",
        updated_at := nowIso,
        timestamp_numeric := TsField.num now }
    let sys :=
      { sys with
        redis := save_job sys.redis jobId j1 now,
        disk := upsert sys.disk jobId j1,
        db := update_animation_status sys.db jobId "rendering" none none none nowIso }
    match proc with
    | ProcOutcome.exited rc stdout stderr =>
      if rc ≠ 0 then
        let error_msg :=
          if stderr ≠ "" then stderr
          else if stdout ≠ "" then stdout
          else "Unknown rendering error"
        let j2 : Job :=
          { j1 with
            status := "failed",
            message := "Rendering failed",
            error := some error_msg,
            updated_at := nowIso,
            timestamp_numeric := TsField.num now }
        { sys with
          redis := save_job sys.redis jobId j2 now,
          disk := upsert sys.disk jobId j2,
          db := update_animation_status sys.db jobId "failed" none none none nowIso }
      else
        let video_name := class_name ++ ".mp4"
        match find_video_file sys.mediaExists sys.media video_name with
        | none =>
          let j2 : Job :=
            { j1 with
              status := "failed",
              message := "Video file not found after rendering",
              error := some ("Expected: " ++ video_name),
              updated_at := nowIso,
              timestamp_numeric := TsField.num now }
          { sys with
            redis := save_job sys.redis jobId j2 now,
            disk := upsert sys.disk jobId j2,
            db := update_animation_status sys.db jobId "failed" none none none nowIso }
        | some _ =>
          let j2 : Job :=
            { j1 with
              status := "completed",
              message := "Animation completed successfully with audio",
              video_name := some video_name,
              updated_at := nowIso,
              timestamp_numeric := TsField.num now }
          { sys with
            redis := save_job sys.redis jobId j2 now,
            disk := upsert sys.disk jobId j2,
            db := update_animation_status sys.db jobId "completed"
              (some video_name) j1.audio_filename j1.audio_duration nowIso }
    | ProcOutcome.timedOut =>
      -- the handler re-fetches the job from Redis
      match get_job sys.redis jobId with
      | none => sys
      | some j2 =>
        let j3 : Job :=
          { j2 with
            status := "failed",
            message := "Rendering timeout",
            error := some ("Exceeded " ++ toString RENDER_TIMEOUT ++ "s timeout"),
            updated_at := nowIso,
            timestamp_numeric := TsField.num now }
        { sys with
          redis := save_job sys.redis jobId j3 now,
          disk := upsert sys.disk jobId j3,
          db := update_animation_status sys.db jobId "failed" none none none nowIso }
    | ProcOutcome.raised msg =>
      match get_job sys.redis jobId with
      | none => sys
      | some j2 =>
        let j3 : Job :=
          { j2 with
            status := "failed",
            message := "Rendering failed",
            error := some msg,
            updated_at := nowIso,
            timestamp_numeric := TsField.num now }
        { sys with
          redis := save_job sys.redis jobId j3 now,
          disk := upsert sys.disk jobId j3,
          db := update_animation_status sys.db jobId "failed" none none none nowIso }

/-- `create_animation_job` from src/helper_service.py.  The three
collaborator stages are passed as `Except` outcomes (`narr`, `audio`,
`scriptGen`); `jobId` stands for the generated uuid, and `nowIso`/`now` for
the datetime/time calls.  On a stage failure the job is marked `failed` in
Redis and the disk mirror and the exception is re-raised (the `animations`
table is not touched on this path). -/
def create_animation_job (sys : Sys) (topic : String) (topic_id : Int)
    (subject : String) (subject_id : Int) (chapter : String) (chapter_id : Int)
    (level : Int) (jobId : String) (narr : Except String String)
    (audio : Except String AudioInfo) (scriptGen : Except String String)
    (nowIso : String) (now : Int) : Except String CreateResult × Sys :=
  let job0 : Job :=
    { job_id := jobId,
      status := "generating_narration",
      message := "Generating educational narration...",
      topic := topic,
      topic_id := topic_id,
      subject := subject,
      subject_id := subject_id,
      chapter := chapter,
      chapter_id := chapter_id,
      level := level,
      created_at := nowIso,
      updated_at := nowIso,
      timestamp_numeric := TsField.num now }
  let sys :=
    { sys with
      redis := save_job sys.redis jobId job0 now,
      disk := upsert sys.disk jobId job0 }
  -- Step 1: narration text
  let sys :=
    { sys with calls := sys.calls ++ [StageCall.narrText topic subject chapter level] }
  match narr with
  | Except.error e =>
    let jf : Job :=
      { job0 with
        status := "failed",
        message := "Failed to create animation",
        error := some e,
        updated_at := nowIso }
    (Except.error e,
      { sys with
        redis := save_job sys.redis jobId jf now,
        disk := upsert sys.disk jobId jf })
  | Except.ok narration_text =>
    let job1 : Job :=
      { job0 with
        narration_text := some narration_text,
        status := "generating_audio",
        message := "Converting narration to speech...",
        updated_at := nowIso,
        timestamp_numeric := TsField.num now }
    let sys := { sys with redis := save_job sys.redis jobId job1 now }
    -- Step 2: narration audio
    let sys :=
      { sys with calls := sys.calls ++ [StageCall.narrAudio narration_text jobId] }
    match audio with
    | Except.error e =>
      let jf : Job :=
        { job1 with
          status := "failed",
          message := "Failed to create animation",
          error := some e,
          updated_at := nowIso }
      (Except.error e,
        { sys with
          redis := save_job sys.redis jobId jf now,
          disk := upsert sys.disk jobId jf })
    | Except.ok ainfo =>
      let job2 : Job :=
        { job1 with
          audio_filename := some ainfo.audio_filename,
          audio_duration := some ainfo.duration,
          audio_path := some ainfo.audio_path,
          status := "generating_script",
          message := "Generating educational animation script...",
          updated_at := nowIso,
          timestamp_numeric := TsField.num now }
      let sys := { sys with redis := save_job sys.redis jobId job2 now }
      -- Step 3: manim script
      let sys :=
        { sys with calls := sys.calls ++
            [StageCall.scriptGen topic subject chapter level ainfo.audio_path ainfo.duration] }
      match scriptGen with
      | Except.error e =>
        let jf : Job :=
          { job2 with
            status := "failed",
            message := "Failed to create animation",
            error := some e,
            updated_at := nowIso }
        (Except.error e,
          { sys with
            redis := save_job sys.redis jobId jf now,
            disk := upsert sys.disk jobId jf })
      | Except.ok script =>
        let class_name := sanitizeClassNameStr topic
        let script_filename := jobId ++ "_" ++ class_name ++ ".py"
        let sys := { sys with scripts := upsert sys.scripts script_filename script }
        let job3 : Job :=
          { job2 with
            script := some script,
            script_path := some script_filename,
            class_name := some class_name,
            status := "pending",
            message := "Ready for rendering",
            updated_at := nowIso,
            timestamp_numeric := TsField.num now }
        let sys :=
          { sys with
            redis := save_job sys.redis jobId job3 now,
            disk := upsert sys.disk jobId job3 }
        let sys :=
          { sys with
            db := save_animation sys.db level subject_id subject chapter_id
              chapter topic_id topic jobId none "pending" (some narration_text)
              (some ainfo.audio_filename) (some ainfo.duration)
              (some ainfo.voice_style) nowIso }
        (Except.ok
          { job_id := jobId,
            script := script,
            script_path := script_filename,
            class_name := class_name,
            narration_text := narration_text,
            audio_duration := ainfo.duration }, sys)

/-- Python exception classes distinguished by the retry endpoint. -/
inductive PyErr
  | valueError (msg : String)
  | otherError (msg : String)
  deriving DecidableEq

/-- `retry_job` from src/helper_service.py: only a `failed` job can be
retried; the job is reset to `generating_narration` with `error` cleared,
stages 1-3 re-run with the job's stored request parameters, the script file
is rewritten, and the job is left `pending`. -/
def retry_job (sys : Sys) (jobId : String) (narr : Except String String)
    (audio : Except String AudioInfo) (scriptGen : Except String String)
    (nowIso : String) (now : Int) : Except PyErr CreateResult × Sys :=
  match get_job sys.redis jobId with
  | none => (Except.error (PyErr.valueError "Job not found"), sys)
  | some job =>
    if job.status ≠ "failed" then
      (Except.error (PyErr.valueError ("Cannot retry job with status: " ++ job.status)), sys)
    else
      let job1 : Job :=
        { job with
          status := "generating_narration",
          message := "Regenerating animation with context-aware narration...",
          error := none,
          updated_at := nowIso,
          timestamp_numeric := TsField.num now }
      let sys := { sys with redis := save_job sys.redis jobId job1 now }
      let sys :=
        { sys with calls := sys.calls ++
            [StageCall.narrText job.topic job.subject job.chapter job.level] }
      match narr with
      | Except.error e => (Except.error (PyErr.otherError e), sys)
      | Except.ok narration_text =>
        let sys :=
          { sys with calls := sys.calls ++ [StageCall.narrAudio narration_text jobId] }
        match audio with
        | Except.error e => (Except.error (PyErr.otherError e), sys)
        | Except.ok ainfo =>
          let sys :=
            { sys with calls := sys.calls ++
                [StageCall.scriptGen job.topic job.subject job.chapter job.level
                  ainfo.audio_path ainfo.duration] }
          match scriptGen with
          | Except.error e => (Except.error (PyErr.otherError e), sys)
          | Except.ok script =>
            let class_name := sanitizeClassNameStr job.topic
            let script_filename := jobId ++ "_" ++ class_name ++ ".py"
            let sys := { sys with scripts := upsert sys.scripts script_filename script }
            let job2 : Job :=
              { job1 with
                script := some script,
                script_path := some script_filename,
                class_name := some class_name,
                narration_text := some narration_text,
                audio_filename := some ainfo.audio_filename,
                audio_duration := some ainfo.duration,
                status := "pending",
                updated_at := nowIso,
                timestamp_numeric := TsField.num now }
            let sys :=
              { sys with
                redis := save_job sys.redis jobId job2 now,
                disk := upsert sys.disk jobId job2 }
            (Except.ok
              { job_id := jobId,
                script := script,
                script_path := script_filename,
                class_name := class_name,
                narration_text := narration_text,
                audio_duration := ainfo.duration }, sys)

/-! ### HTTP route handlers (src/routes.py) -/

/-- Response of `POST /retry_job/{job_id}`. -/
inductive RetryResponse
  | ok (job_id status message script : String)
  | httpError (code : Nat) (detail : String)
  deriving DecidableEq

/-- `retry_job_endpoint` from src/routes.py: `ValueError` maps to HTTP 400,
any other exception to HTTP 500; on success the render task is dispatched in
the background (it runs after this response is produced). -/
def retry_job_endpoint (sys : Sys) (jobId : String) (narr : Except String String)
    (audio : Except String AudioInfo) (scriptGen : Except String String)
    (nowIso : String) (now : Int) : RetryResponse × Sys :=
  match retry_job sys jobId narr audio scriptGen nowIso now with
  | (Except.ok r, sys') =>
    (RetryResponse.ok r.job_id "pending" "Job retry started with new script" r.script, sys')
  | (Except.error (PyErr.valueError m), sys') =>
    (RetryResponse.httpError 400 m, sys')
  | (Except.error (PyErr.otherError m), sys') =>
    (RetryResponse.httpError 500 m, sys')

/-- Response of the two video endpoints. -/
inductive VideoResult
  | videoUrl (job_id video_name relative_path status : String)
  | fileStream (path : List String) (filename : String)
  | httpError (code : Nat) (detail : String)
  deriving DecidableEq

/-- The job-to-video-name resolution block that `get_video_by_job` and
`download_video` both inline verbatim: read the job from Redis (job must be
`completed`), else fall back to the animations table (row must be
`completed`), else 404; Python truthiness makes an absent or empty
`video_name` a 404 as well (checked by the callers). -/
def resolveVideoName (sys : Sys) (jobId : String) :
    Except VideoResult (Option String) :=
  match get_job sys.redis jobId with
  | none =>
    match get_animation_by_job_id sys.db jobId with
    | some row =>
      if row.status = "completed" then Except.ok row.video_name
      else Except.error (VideoResult.httpError 404 "Job not found")
    | none => Except.error (VideoResult.httpError 404 "Job not found")
  | some job =>
    if job.status ≠ "completed" then
      Except.error (VideoResult.httpError 400
        ("Video not ready. Job status: " ++ job.status))
    else Except.ok job.video_name

/-- `get_video_by_job` from src/routes.py (`GET /get_video/{job_id}`).
`resolve` models `Path.resolve` (symlink/`..` resolution by the
filesystem); the security check is
`resolved.relative_to(MEDIA_ROOT.resolve())`, which succeeds exactly when
the resolved media root is a path prefix of the resolved file path.  The
returned URL is represented by the MEDIA_ROOT-relative path of the located
file. -/
def get_video_by_job (sys : Sys) (jobId : String)
    (resolve : List String → List String) : VideoResult :=
  match resolveVideoName sys jobId with
  | Except.error r => r
  | Except.ok vnOpt =>
    match vnOpt with
    | none => VideoResult.httpError 404 "Video file not associated with this job"
    | some vn =>
      if vn = "" then
        VideoResult.httpError 404 "Video file not associated with this job"
      else
        match find_video_file sys.mediaExists sys.media vn with
        | none => VideoResult.httpError 404 ("Video file not found: " ++ vn)
        | some f =>
          if (resolve sys.mediaRoot).isPrefixOf (resolve f.path) then
            VideoResult.videoUrl jobId vn
              (String.intercalate "/" (f.path.drop sys.mediaRoot.length)) "completed"
          else VideoResult.httpError 403 "Access denied"

/-- `download_video` from src/routes.py (`GET /download_video/{job_id}`):
identical control flow, but the located file itself is streamed back with an
attachment disposition. -/
def download_video (sys : Sys) (jobId : String)
    (resolve : List String → List String) : VideoResult :=
  match resolveVideoName sys jobId with
  | Except.error r => r
  | Except.ok vnOpt =>
    match vnOpt with
    | none => VideoResult.httpError 404 "Video file not associated with this job"
    | some vn =>
      if vn = "" then
        VideoResult.httpError 404 "Video file not associated with this job"
      else
        match find_video_file sys.mediaExists sys.media vn with
        | none => VideoResult.httpError 404 ("Video file not found: " ++ vn)
        | some f =>
          if (resolve sys.mediaRoot).isPrefixOf (resolve f.path) then
            VideoResult.fileStream f.path f.name
          else VideoResult.httpError 403 "Access denied"

/-- The body of `POST /generate_animation` (`AnimationRequest`). -/
structure AnimReq where
  topic : String
  topic_id : Int
  subject : String
  subject_id : Int
  chapter : String
  chapter_id : Int
  level : Int
  deriving DecidableEq

/-- Response of `POST /generate_animation`: a cache hit (`cached: true`), a
fresh generation (`cached: false`), or an HTTP error. -/
inductive GenResult
  | cachedResp (job_id status : String) (video_name : Option String)
      (video_url : Option String) (script : Option String) (topic : Option String)
  | freshResp (job_id status script : String)
  | httpError (code : Nat) (detail : String)
  deriving DecidableEq

/-- `generate_animation` from src/routes.py: consult the animations table
first; on a hit answer from cache (reconstructing the job summary from the
table row if Redis has dropped the record) without running any stage; on a
miss check the API key and Redis, run `create_animation_job`, dispatch the
render in the background, and answer `cached: false`. -/
def generate_animation (sys : Sys) (req : AnimReq)
    (apiKeyConfigured redisPing : Bool) (jobId : String)
    (narr : Except String String) (audio : Except String AudioInfo)
    (scriptGen : Except String String) (nowIso : String) (now : Int)
    (resolve : List String → List String) : GenResult × Sys :=
  match check_existing_animation sys.db req.level req.subject_id req.chapter_id
      req.topic_id with
  | some existing =>
    let jobInfo : Job :=
      match get_job sys.redis existing.job_id with
      | some j => j
      | none =>
        { job_id := existing.job_id,
          status := existing.status,
          message := "Animation retrieved from cache",
          video_name := existing.video_name,
          topic := existing.topic_name,
          created_at := existing.created_at,
          updated_at := existing.updated_at }
    let video_url : Option String :=
      match jobInfo.video_name with
      | none => none
      | some vn =>
        if vn = "" then none
        else
          match find_video_file sys.mediaExists sys.media vn with
          | none => none
          | some f =>
            if (resolve sys.mediaRoot).isPrefixOf (resolve f.path) then
              some (String.intercalate "/" (f.path.drop sys.mediaRoot.length))
            else none
    (GenResult.cachedResp existing.job_id jobInfo.status jobInfo.video_name
      video_url jobInfo.script (some jobInfo.topic), sys)
  | none =>
    if apiKeyConfigured = false then
      (GenResult.httpError 500
        "GEMINI_API_KEY not configured. Please set it in .env file", sys)
    else if redisPing = false then
      (GenResult.httpError 503 "Redis connection unavailable", sys)
    else
      match create_animation_job sys req.topic req.topic_id req.subject
          req.subject_id req.chapter req.chapter_id req.level jobId narr audio
          scriptGen nowIso now with
      | (Except.ok r, sys') => (GenResult.freshResp r.job_id "pending" r.script, sys')
      | (Except.error e, sys') => (GenResult.httpError 500 e, sys')

/-- The timestamp actually used by `save_job` as the ordering score and the
persisted `timestamp_numeric`: a convertible slot value unchanged, anything
else the current time — `created_at` is never consulted. -/
def repairedScore (ts : TsField) (now : Int) : Int :=
  match floatConvTs ts with
  | some v => v
  | none => now

/-! ### Concrete fixtures used by witnesses and counterexamples -/

/-- An empty Redis store. -/
def emptyRedis : RedisState := { kv := [], zset := [] }

/-- A job whose `timestamp_numeric` slot is absent. -/
def jobTsMissing : Job :=
  { job_id := "a", status := "pending", timestamp_numeric := TsField.missing }

/-- A job with a valid numeric ordering timestamp. -/
def jobTsNum3 : Job :=
  { job_id := "b", status := "pending", timestamp_numeric := TsField.num 3 }

/-- A job with no numeric timestamp but a parseable `created_at`. -/
def jobTsCreated : Job :=
  { job_id := "j1", status := "pending", created_at := "2020-01-01T00:00:00",
    timestamp_numeric := TsField.missing }

/-- The iso-parser model used in the C8 counterexample. -/
def parseIsoW : String → Option Int :=
  fun s => if s = "2020-01-01T00:00:00" then some 500 else none

/-! ### Claim C9: listing order -/

/-- Numeric value of a job's ordering timestamp slot. -/
def tsNum : TsField → Int
  | TsField.num v => v
  | _ => 0

/-- One stored job's `timestamp_numeric` agrees with its score in the
ordering index. -/
def tsMatches (st : RedisState) (e : String × Job) : Bool :=
  match lookup st.zset e.1 with
  | some s => e.2.timestamp_numeric == TsField.num s
  | none => false

/-- Every stored job's `timestamp_numeric` agrees with its ordering-index
score — the invariant `save_job` maintains. -/
def TimestampsMatch (st : RedisState) : Prop :=
  ∀ e ∈ st.kv, tsMatches st e = true

/-- A second stored job, older than `jobA`. -/
def jobB9 : Job :=
  { job_id := "b", status := "failed", timestamp_numeric := TsField.num 3 }

/-- A stored job with score 5. -/
def jobA9 : Job :=
  { job_id := "a", status := "completed", timestamp_numeric := TsField.num 5 }

/-- A two-job store whose index matches the records. -/
def st9 : RedisState :=
  { kv := [("a", jobA9), ("b", jobB9)], zset := [("a", 5), ("b", 3)] }

/-! ### Claim C2: retry endpoint rejections -/

/-- A TTS collaborator result used in concrete runs. -/
def ainfoW : AudioInfo :=
  { audio_path := "p.wav", audio_filename := "a.wav", duration := 5 }

/-- A system with an empty job store. -/
def emptySys : Sys := { redis := emptyRedis }

/-! ### Claim C7: retry effects -/

/-- A failed job whose script artifact was written at creation time. -/
def jobFailedW : Job :=
  { job_id := "J", status := "failed", topic := "Topic", subject := "S",
    chapter := "C", level := 4, created_at := "t0", updated_at := "t0",
    timestamp_numeric := TsField.num 1 }

/-- A system holding `jobFailedW` and its previous script artifact. -/
def sysRetryW : Sys :=
  { redis := { kv := [("J", jobFailedW)], zset := [("J", 1)] },
    scripts := [("J_TopicScene.py", "OLD")] }

/-! ### Claim C1: creation cache behavior -/

/-- A completed cached animation row matching `reqW`. -/
def rowCompleted : AnimRow :=
  { level := 4, subject_id := 2, chapter_id := 3, topic_id := 1, job_id := "JC",
    status := "completed", video_name := some "V.mp4", topic_name := "T",
    created_at := "t0", updated_at := "t0" }

/-- The same logical tuple but still pending. -/
def rowPending : AnimRow :=
  { level := 4, subject_id := 2, chapter_id := 3, topic_id := 1, job_id := "JP",
    status := "pending", topic_name := "T", created_at := "t0", updated_at := "t0" }

/-- The creation request for tuple (4, 2, 3, 1). -/
def reqW : AnimReq :=
  { topic := "T", topic_id := 1, subject := "S", subject_id := 2, chapter := "C",
    chapter_id := 3, level := 4 }

/-- A system whose cache index has the completed row. -/
def sysCached : Sys := { redis := emptyRedis, db := [rowCompleted] }

/-- A system whose cache index has only the pending row. -/
def sysPending : Sys := { redis := emptyRedis, db := [rowPending] }

/-- A video file under the media root. -/
def mfileW : MFile := { path := ["m", "V.mp4"], name := "V.mp4", isFile := true }

/-- A completed job pointing at `V.mp4`. -/
def jobVideoW : Job :=
  { job_id := "JV", status := "completed", video_name := some "V.mp4" }

/-- A system serving `V.mp4` from media root `["m"]`. -/
def sysVideo : Sys :=
  { redis := { kv := [("JV", jobVideoW)], zset := [("JV", 1)] },
    mediaRoot := ["m"], media := [mfileW] }

/-- A resolver under which the video file escapes the media root (for
instance because it is a symlink pointing outside). -/

def resolveOutW : List String → List String :=
  fun l => if l = ["m", "V.mp4"] then ["x", "V.mp4"] else l

/-! ### Character classification lemmas (ASCII) -/

theorem char_isUpper_toNat {c : Char} (h : c.isUpper = true) :
    65 ≤ c.toNat ∧ c.toNat ≤ 90 := by
  simp only [Char.isUpper, Bool.and_eq_true, decide_eq_true_eq] at h
  obtain ⟨h1, h2⟩ := h
  rw [ge_iff_le] at h1
  rw [UInt32.le_def, BitVec.le_def] at h1 h2
  simp [Char.toNat, UInt32.toNat] at *
  omega

theorem char_isLower_toNat {c : Char} (h : c.isLower = true) :
    97 ≤ c.toNat ∧ c.toNat ≤ 122 := by
  simp only [Char.isLower, Bool.and_eq_true, decide_eq_true_eq] at h
  obtain ⟨h1, h2⟩ := h
  rw [ge_iff_le] at h1
  rw [UInt32.le_def, BitVec.le_def] at h1 h2
  simp [Char.toNat, UInt32.toNat] at *
  omega

theorem char_isDigit_toNat {c : Char} (h : c.isDigit = true) :
    48 ≤ c.toNat ∧ c.toNat ≤ 57 := by
  simp only [Char.isDigit, Bool.and_eq_true, decide_eq_true_eq] at h
  obtain ⟨h1, h2⟩ := h
  rw [ge_iff_le] at h1
  rw [UInt32.le_def, BitVec.le_def] at h1 h2
  simp [Char.toNat, UInt32.toNat] at *
  omega

theorem ofNat_isUpper {m : Nat} (h1 : 65 ≤ m) (h2 : m ≤ 90) :
    (Char.ofNat m).isUpper = true := by
  interval_cases m <;> decide

theorem ofNat_isLower {m : Nat} (h1 : 97 ≤ m) (h2 : m ≤ 122) :
    (Char.ofNat m).isLower = true := by
  interval_cases m <;> decide

theorem toUpper_eq_of_not_lower {c : Char} (h : ¬(97 ≤ c.toNat ∧ c.toNat ≤ 122)) :
    c.toUpper = c := by
  unfold Char.toUpper
  exact if_neg h

theorem toUpper_eq_of_lower {c : Char} (h : 97 ≤ c.toNat ∧ c.toNat ≤ 122) :
    c.toUpper = Char.ofNat (c.toNat - 32) := by
  unfold Char.toUpper
  exact if_pos h

theorem toLower_eq_of_not_upper {c : Char} (h : ¬(65 ≤ c.toNat ∧ c.toNat ≤ 90)) :
    c.toLower = c := by
  unfold Char.toLower
  exact if_neg h

theorem toLower_eq_of_upper {c : Char} (h : 65 ≤ c.toNat ∧ c.toNat ≤ 90) :
    c.toLower = Char.ofNat (c.toNat + 32) := by
  unfold Char.toLower
  exact if_pos h

theorem toUpper_alnum {c : Char} (h : c.isAlphanum = true) :
    c.toUpper.isAlphanum = true := by
  simp only [Char.isAlphanum, Char.isAlpha, Bool.or_eq_true] at h ⊢
  rcases h with (hu | hl) | hd
  · have hb := char_isUpper_toNat hu
    rw [toUpper_eq_of_not_lower (by omega)]
    exact Or.inl (Or.inl hu)
  · have hb := char_isLower_toNat hl
    rw [toUpper_eq_of_lower (by omega)]
    exact Or.inl (Or.inl (ofNat_isUpper (by omega) (by omega)))
  · have hb := char_isDigit_toNat hd
    rw [toUpper_eq_of_not_lower (by omega)]
    exact Or.inr hd

theorem toLower_alnum {c : Char} (h : c.isAlphanum = true) :
    c.toLower.isAlphanum = true := by
  simp only [Char.isAlphanum, Char.isAlpha, Bool.or_eq_true] at h ⊢
  rcases h with (hu | hl) | hd
  · have hb := char_isUpper_toNat hu
    rw [toLower_eq_of_upper (by omega)]
    exact Or.inl (Or.inr (ofNat_isLower (by omega) (by omega)))
  · have hb := char_isLower_toNat hl
    rw [toLower_eq_of_not_upper (by omega)]
    exact Or.inl (Or.inr hl)
  · have hb := char_isDigit_toNat hd
    rw [toLower_eq_of_not_upper (by omega)]
    exact Or.inr hd

theorem alnum_not_digit_isAlpha {c : Char} (h : c.isAlphanum = true)
    (hd : c.isDigit = false) : c.isAlpha = true := by
  simp only [Char.isAlphanum, Bool.or_eq_true] at h
  rcases h with h | h
  · exact h
  · rw [h] at hd; cases hd

/-! ### Structure of `sanitize_class_name` output -/

theorem splitWsAux_sound :
    ∀ (l acc : List Char), (∀ a ∈ acc, a.isWhitespace = false) →
      ∀ w ∈ splitWsAux l acc, ∀ c ∈ w, (c ∈ acc ∨ c ∈ l) ∧ c.isWhitespace = false := by
  intro l
  induction l with
  | nil =>
    intro acc hacc w hw c hc
    simp only [splitWsAux] at hw
    split at hw
    · simp at hw
    · simp only [List.mem_singleton] at hw
      subst hw
      rw [List.mem_reverse] at hc
      exact ⟨Or.inl hc, hacc c hc⟩
  | cons c0 rest ih =>
    intro acc hacc w hw c hc
    simp only [splitWsAux] at hw
    by_cases hws : c0.isWhitespace
    · rw [if_pos hws] at hw
      by_cases hae : acc.isEmpty
      · rw [if_pos hae] at hw
        have := ih [] (by simp) w hw c hc
        rcases this with ⟨hmem, hnws⟩
        rcases hmem with h | h
        · simp at h
        · exact ⟨Or.inr (List.mem_cons_of_mem _ h), hnws⟩
      · rw [if_neg hae] at hw
        rcases List.mem_cons.mp hw with hw | hw
        · subst hw
          rw [List.mem_reverse] at hc
          exact ⟨Or.inl hc, hacc c hc⟩
        · have := ih [] (by simp) w hw c hc
          rcases this with ⟨hmem, hnws⟩
          rcases hmem with h | h
          · simp at h
          · exact ⟨Or.inr (List.mem_cons_of_mem _ h), hnws⟩
    · rw [if_neg hws] at hw
      have hacc' : ∀ a ∈ c0 :: acc, a.isWhitespace = false := by
        intro a ha
        rcases List.mem_cons.mp ha with h | h
        · subst h; exact Bool.eq_false_iff.mpr hws
        · exact hacc a h
      have := ih (c0 :: acc) hacc' w hw c hc
      rcases this with ⟨hmem, hnws⟩
      rcases hmem with h | h
      · rcases List.mem_cons.mp h with h | h
        · subst h; exact ⟨Or.inr (List.mem_cons_self _ _), hnws⟩
        · exact ⟨Or.inl h, hnws⟩
      · exact ⟨Or.inr (List.mem_cons_of_mem _ h), hnws⟩

theorem superscript_vals {c : Char}
    (h : superscriptDigits.contains c.toNat = true) :
    c.toNat = 185 ∨ c.toNat = 178 ∨ c.toNat = 179 := by
  simp [superscriptDigits] at h
  exact h

theorem superscript_toUpper {c : Char}
    (h : superscriptDigits.contains c.toNat = true) : c.toUpper = c := by
  rcases superscript_vals h with h1 | h1 | h1 <;>
    exact toUpper_eq_of_not_lower (by omega)

theorem superscript_toLower {c : Char}
    (h : superscriptDigits.contains c.toNat = true) : c.toLower = c := by
  rcases superscript_vals h with h1 | h1 | h1 <;>
    exact toLower_eq_of_not_upper (by omega)

theorem pyAlnum_toUpper {c : Char} (h : pyIsAlnum c = true) :
    pyIsAlnum c.toUpper = true := by
  unfold pyIsAlnum at h ⊢
  rcases Bool.or_eq_true _ _ |>.mp h with h1 | h1
  · exact Bool.or_eq_true _ _ |>.mpr (Or.inl (toUpper_alnum h1))
  · rw [superscript_toUpper h1]
    exact h

theorem pyAlnum_toLower {c : Char} (h : pyIsAlnum c = true) :
    pyIsAlnum c.toLower = true := by
  unfold pyIsAlnum at h ⊢
  rcases Bool.or_eq_true _ _ |>.mp h with h1 | h1
  · exact Bool.or_eq_true _ _ |>.mpr (Or.inl (toLower_alnum h1))
  · rw [superscript_toLower h1]
    exact h

theorem buildClassName_chars (topic : List Char) :
    ∀ c ∈ buildClassName topic,
      pyIsAlnum c = true ∧
      ∃ d ∈ topic, pyIsAlnum d = true ∧ (c = d.toUpper ∨ c = d.toLower) := by
  intro c hc
  unfold buildClassName at hc
  set kept := topic.map (fun c => if pyIsAlnum c || c.isWhitespace then c else ' ') with hkept
  rw [List.mem_flatten] at hc
  obtain ⟨w', hw', hcw'⟩ := hc
  rw [List.mem_map] at hw'
  obtain ⟨w, hw, rfl⟩ := hw'
  -- characters of the word: in `kept` and not whitespace
  have hwordchars : ∀ d ∈ w, d ∈ kept ∧ d.isWhitespace = false := by
    intro d hd
    have h := splitWsAux_sound kept [] (by simp) w hw d hd
    rcases h with ⟨hmem, hnws⟩
    rcases hmem with h | h
    · simp at h
    · exact ⟨h, hnws⟩
  -- a non-whitespace character of `kept` is an alphanumeric character of `topic`
  have horigin : ∀ d ∈ kept, d.isWhitespace = false →
      d ∈ topic ∧ pyIsAlnum d = true := by
    intro d hd hnws
    rw [hkept, List.mem_map] at hd
    obtain ⟨y, hy, hfy⟩ := hd
    by_cases hya : (pyIsAlnum y || y.isWhitespace) = true
    · rw [if_pos hya] at hfy
      subst hfy
      rcases Bool.or_eq_true _ _ |>.mp hya with h | h
      · exact ⟨hy, h⟩
      · rw [h] at hnws; cases hnws
    · rw [if_neg hya] at hfy
      subst hfy
      simp at hnws
  -- decompose membership in the capitalized word
  cases w with
  | nil => simp [pyCapitalize] at hcw'
  | cons d0 ds =>
    have hd0 := hwordchars d0 (List.mem_cons_self _ _)
    have hd0' := horigin d0 hd0.1 hd0.2
    simp only [pyCapitalize, List.mem_cons] at hcw'
    rcases hcw' with rfl | hcw'
    · exact ⟨pyAlnum_toUpper hd0'.2, d0, hd0'.1, hd0'.2, Or.inl rfl⟩
    · rw [List.mem_map] at hcw'
      obtain ⟨e, he, rfl⟩ := hcw'
      have hech := hwordchars e (List.mem_cons_of_mem _ he)
      have he' := horigin e hech.1 hech.2
      exact ⟨pyAlnum_toLower he'.2, e, he'.1, he'.2, Or.inr rfl⟩

theorem isValidPyIdent_of_alnum {s : List Char} (hne : s ≠ [])
    (halnum : ∀ c ∈ s, c.isAlphanum = true)
    (hfirst : ∀ c cs, s = c :: cs → c.isAlpha = true) :
    isValidPyIdent s = true := by
  cases s with
  | nil => exact absurd rfl hne
  | cons c cs =>
    simp only [isValidPyIdent, Bool.and_eq_true, Bool.or_eq_true, List.all_eq_true]
    refine ⟨Or.inl (hfirst c cs rfl), ?_⟩
    intro d hd
    exact Or.inl (halnum d (List.mem_cons_of_mem _ hd))

theorem anim_chars_alnum : ∀ x ∈ ("Anim".data : List Char), x.isAlphanum = true := by
  decide

theorem scene_chars_alnum : ∀ x ∈ ("Scene".data : List Char), x.isAlphanum = true := by
  decide

theorem buildClassName_eq_nil (topic : List Char)
    (h : ∀ c ∈ topic, pyIsAlnum c = false) : buildClassName topic = [] := by
  rw [List.eq_nil_iff_forall_not_mem]
  intro x hx
  obtain ⟨-, d, hd, hda, -⟩ := buildClassName_chars topic x hx
  rw [h d hd] at hda
  cases hda

theorem sanitize_class_name_nil {topic : List Char}
    (hbc : buildClassName topic = []) :
    sanitize_class_name topic = "Animation".data ++ "Scene".data := by
  unfold sanitize_class_name
  rw [hbc]

theorem sanitize_class_name_cons {topic : List Char} {c : Char} {cs : List Char}
    (hbc : buildClassName topic = c :: cs) :
    sanitize_class_name topic =
      if pyIsDigit c then "Anim".data ++ (c :: cs) ++ "Scene".data
      else (c :: cs) ++ "Scene".data := by
  unfold sanitize_class_name
  rw [hbc]

theorem sanitize_class_name_valid (topic : List Char)
    (htopic : ∀ c ∈ topic, c.toNat ≤ 127) :
    isValidPyIdent (sanitize_class_name topic) = true := by
  cases hbc : buildClassName topic with
  | nil =>
    rw [sanitize_class_name_nil hbc]
    decide
  | cons c cs =>
    rw [sanitize_class_name_cons hbc]
    have hall : ∀ x ∈ c :: cs, x.isAlphanum = true := by
      intro x hx
      obtain ⟨-, d, hd, hda, hcase⟩ := buildClassName_chars topic x (hbc ▸ hx)
      have hdA : d.isAlphanum = true := by
        unfold pyIsAlnum at hda
        rcases Bool.or_eq_true _ _ |>.mp hda with h1 | h1
        · exact h1
        · exfalso
          have h3 := htopic d hd
          rcases superscript_vals h1 with h2 | h2 | h2 <;> omega
      rcases hcase with rfl | rfl
      · exact toUpper_alnum hdA
      · exact toLower_alnum hdA
    by_cases hd : pyIsDigit c = true
    · rw [if_pos hd]
      apply isValidPyIdent_of_alnum
      · simp
      · intro x hx
        rcases List.mem_append.mp hx with hx | hx
        · rcases List.mem_append.mp hx with hx | hx
          · exact anim_chars_alnum x hx
          · exact hall x hx
        · exact scene_chars_alnum x hx
      · intro a as ha
        have h4 : ("Anim".data : List Char) = ['A', 'n', 'i', 'm'] := rfl
        rw [h4] at ha
        simp only [List.cons_append] at ha
        injection ha with h1 _
        rw [← h1]
        decide
    · rw [if_neg hd]
      apply isValidPyIdent_of_alnum
      · simp
      · intro x hx
        rcases List.mem_append.mp hx with hx | hx
        · exact hall x hx
        · exact scene_chars_alnum x hx
      · intro a as ha
        simp only [List.cons_append] at ha
        injection ha with h1 _
        rw [← h1]
        have hdig : c.isDigit = false := by
          by_contra hcon
          rw [Bool.not_eq_false] at hcon
          exact hd (by unfold pyIsDigit; rw [hcon, Bool.true_or])
        exact alnum_not_digit_isAlpha (hall c (List.mem_cons_self _ _)) hdig

/-- Claim C10 (amended): for every topic, `sanitize_class_name` returns a
nonempty string ending in `Scene` whose first character is never a digit;
a topic with no alphanumeric characters maps to `AnimationScene`, and when
the first kept character of the built class name is a digit the result is
prefixed with `Anim`.  The result is a valid Python identifier whenever
the topic consists of ASCII characters; a topic containing a non-ASCII
alphanumeric that is not an identifier character (such as the superscript
`²`) can produce an invalid identifier. -/
theorem sanitize_class_name_spec (topic : List Char) :
    sanitize_class_name topic ≠ [] ∧
    (∃ stem, sanitize_class_name topic = stem ++ "Scene".data) ∧
    (∀ c cs, sanitize_class_name topic = c :: cs → pyIsDigit c = false) ∧
    ((∀ c ∈ topic, pyIsAlnum c = false) →
      sanitize_class_name topic = "AnimationScene".data) ∧
    (∀ c cs, buildClassName topic = c :: cs → pyIsDigit c = true →
      sanitize_class_name topic = "Anim".data ++ (c :: cs) ++ "Scene".data) ∧
    ((∀ c ∈ topic, c.toNat ≤ 127) →
      isValidPyIdent (sanitize_class_name topic) = true) := by
  refine ⟨?_, ?_, ?_, ?_, ?_, sanitize_class_name_valid topic⟩
  · cases hbc : buildClassName topic with
    | nil =>
      rw [sanitize_class_name_nil hbc]
      decide
    | cons c cs =>
      rw [sanitize_class_name_cons hbc]
      by_cases hd : pyIsDigit c = true
      · rw [if_pos hd]
        simp
      · rw [if_neg hd]
        simp
  · cases hbc : buildClassName topic with
    | nil =>
      rw [sanitize_class_name_nil hbc]
      exact ⟨"Animation".data, rfl⟩
    | cons c cs =>
      rw [sanitize_class_name_cons hbc]
      by_cases hd : pyIsDigit c = true
      · rw [if_pos hd]
        exact ⟨"Anim".data ++ (c :: cs), rfl⟩
      · rw [if_neg hd]
        exact ⟨c :: cs, rfl⟩
  · intro a as ha
    cases hbc : buildClassName topic with
    | nil =>
      rw [sanitize_class_name_nil hbc] at ha
      have h9 : ("Animation".data : List Char) ++ "Scene".data =
          'A' :: "nimationScene".data := rfl
      rw [h9] at ha
      injection ha with h1 _
      rw [← h1]
      decide
    | cons c cs =>
      rw [sanitize_class_name_cons hbc] at ha
      by_cases hd : pyIsDigit c = true
      · rw [if_pos hd] at ha
        have h4 : ("Anim".data : List Char) = ['A', 'n', 'i', 'm'] := rfl
        rw [h4] at ha
        simp only [List.cons_append] at ha
        injection ha with h1 _
        rw [← h1]
        decide
      · rw [if_neg hd] at ha
        simp only [List.cons_append] at ha
        injection ha with h1 _
        rw [← h1]
        exact Bool.eq_false_iff.mpr hd
  · intro h
    rw [sanitize_class_name_nil (buildClassName_eq_nil topic h)]
    decide
  · intro c cs hbc hd
    rw [sanitize_class_name_cons hbc, if_pos hd]

/-- Witness for C10 (amended): concrete evaluations exercising every
hypothesis. -/
theorem sanitize_class_name_spec_witness :
    sanitize_class_name "3d plots!".data =
      "Anim".data ++ ('3' :: "dPlots".data) ++ "Scene".data ∧
    sanitize_class_name "@#!".data = "AnimationScene".data ∧
    isValidPyIdent (sanitize_class_name "3d plots!".data) = true := by
  refine ⟨?_, ?_, ?_⟩
  · exact (sanitize_class_name_spec "3d plots!".data).2.2.2.2.1 '3' "dPlots".data
      (by decide) (by decide)
  · exact (sanitize_class_name_spec "@#!".data).2.2.2.1 (by decide)
  · exact (sanitize_class_name_spec "3d plots!".data).2.2.2.2.2 (by decide)

/-- Counterexample to C10 as stated: Python keeps the superscript `²`
(`'²'.isalnum()` is `True`), so `sanitize_class_name` applied to `E=mc²`
returns `EMc²Scene` — which is not a valid Python identifier, because `²`
is not an identifier character. -/
theorem sanitize_class_name_unicode_counterexample :
    sanitize_class_name "E=mc²".data = "EMc²Scene".data ∧
    isValidPyIdent "EMc²Scene".data = false := by
  constructor
  · decide
  · decide

theorem collectSentences_join_length (maxChars : Nat) :
    ∀ (ss : List (List Char)) (cur : Nat),
      collectSentences maxChars ss cur = [] ∨
      cur + (joinDotSpace (collectSentences maxChars ss cur)).length + 2 ≤ maxChars := by
  intro ss
  induction ss with
  | nil => intro cur; left; rfl
  | cons s rest ih =>
    intro cur
    by_cases h : cur + s.length + 2 ≤ maxChars
    · right
      have hcol : collectSentences maxChars (s :: rest) cur
          = s :: collectSentences maxChars rest (cur + s.length + 2) := by
        show (if cur + s.length + 2 ≤ maxChars then
            s :: collectSentences maxChars rest (cur + s.length + 2) else [])
          = s :: collectSentences maxChars rest (cur + s.length + 2)
        rw [if_pos h]
      rw [hcol]
      rcases ih (cur + s.length + 2) with hnil | hle
      · rw [hnil]
        show cur + (joinDotSpace [s]).length + 2 ≤ maxChars
        show cur + s.length + 2 ≤ maxChars
        exact h
      · cases hsub : collectSentences maxChars rest (cur + s.length + 2) with
        | nil =>
          show cur + (joinDotSpace [s]).length + 2 ≤ maxChars
          show cur + s.length + 2 ≤ maxChars
          exact h
        | cons t ts =>
          rw [hsub] at hle
          have hj : joinDotSpace (s :: t :: ts) = s ++ '.' :: ' ' :: joinDotSpace (t :: ts) := rfl
          rw [hj, List.length_append, List.length_cons, List.length_cons]
          omega
    · left
      show (if cur + s.length + 2 ≤ maxChars then
          s :: collectSentences maxChars rest (cur + s.length + 2) else []) = []
      rw [if_neg h]

theorem truncateNarration_length_le (n : List Char) (maxChars : Nat)
    (h1 : 1 ≤ maxChars) : (truncateNarration n maxChars).length ≤ maxChars := by
  unfold truncateNarration
  by_cases hgt : n.length > maxChars
  · rw [if_pos hgt]
    rcases collectSentences_join_length maxChars (pySplitSep n ['.', ' ']) 0 with hnil | hle
    · rw [hnil]
      show (dotTerminate []).length ≤ maxChars
      have : dotTerminate [] = ['.'] := rfl
      rw [this]
      simpa using h1
    · unfold dotTerminate
      by_cases he : endsWithDot (joinDotSpace (collectSentences maxChars (pySplitSep n ['.', ' ']) 0))
      · rw [if_pos he]
        omega
      · rw [if_neg he, List.length_append]
        simp only [List.length_singleton]
        omega
  · rw [if_neg hgt]
    omega

/-- Claim C6 (amended): a successful run of the narration text stage returns
text whose length is at most the level-dependent maximum — the minimum is
not enforced, and empty collaborator output is returned as an empty success,
not a failure — while a collaborator error always propagates as a stage
failure. -/
theorem generate_narration_text_bounds :
    (∀ (apiKeyConfigured : Bool) (level : Int)
        (collab : Except (List Char) (List Char)) (s : List Char),
      generate_narration_text apiKeyConfigured level collab = Except.ok s →
      s.length ≤ (get_narration_length_for_level level).2) ∧
    (∀ (level : Int) (e : List Char),
      generate_narration_text true level (Except.error e) = Except.error e) := by
  constructor
  · intro k level collab s h
    unfold generate_narration_text at h
    by_cases hk : k = false
    · rw [if_pos hk] at h
      cases h
    · rw [if_neg hk] at h
      cases collab with
      | error e => cases h
      | ok raw =>
        have hs : processNarration raw level = s := by
          injection h
        rw [← hs]
        unfold processNarration
        refine truncateNarration_length_le _ _ ?_
        unfold get_narration_length_for_level
        split_ifs <;> norm_num
  · intro level e
    rfl

/-- Witness for C6 (amended): the bound and the error propagation at
concrete inputs. -/
theorem generate_narration_text_bounds_witness :
    ("Hi".data : List Char).length ≤ (get_narration_length_for_level 1).2 ∧
    generate_narration_text true 1 (Except.error "boom".data) =
      Except.error "boom".data :=
  ⟨generate_narration_text_bounds.1 true 1 (Except.ok "Hi".data) "Hi".data rfl,
   generate_narration_text_bounds.2 1 "boom".data⟩

/-- Counterexample to C6 as stated: the collaborator returning the
2-character text `Hi` at level 1 (range 200-350) yields a successful result
far below the minimum, and empty collaborator output yields an empty
success instead of a stage failure. -/
theorem generate_narration_text_counterexample :
    generate_narration_text true 1 (Except.ok "Hi".data) = Except.ok "Hi".data ∧
    ("Hi".data : List Char).length < (get_narration_length_for_level 1).1 ∧
    generate_narration_text true 1 (Except.ok []) = Except.ok [] :=
  ⟨rfl, by decide, rfl⟩

/-! ### Store lemmas -/

theorem lookup_cons {α : Type} (e : String × α) (t : List (String × α)) (k : String) :
    lookup (e :: t) k = if e.1 = k then some e.2 else lookup t k := by
  by_cases h : e.1 = k
  · rw [if_pos h]
    unfold lookup
    rw [List.find?_cons_of_pos _ (by simp [h])]
    rfl
  · rw [if_neg h]
    unfold lookup
    rw [List.find?_cons_of_neg _ (by simp [h])]

theorem lookup_upsert_self {α : Type} (l : List (String × α)) (k : String) (v : α) :
    lookup (upsert l k v) k = some v := by
  induction l with
  | nil => simp [upsert, lookup_cons]
  | cons e rest ih =>
    by_cases h : e.1 = k
    · simp [upsert, h, lookup_cons]
    · simp only [upsert, if_neg h]
      rw [lookup_cons, if_neg h]
      exact ih

theorem lookup_upsert_ne {α : Type} (l : List (String × α)) (k k' : String) (v : α)
    (h : k' ≠ k) : lookup (upsert l k v) k' = lookup l k' := by
  induction l with
  | nil =>
    show lookup [(k, v)] k' = lookup [] k'
    rw [lookup_cons]
    rw [if_neg (fun hh : k = k' => h hh.symm)]
  | cons e rest ih =>
    show lookup (if e.1 = k then (k, v) :: rest else e :: upsert rest k v) k'
      = lookup (e :: rest) k'
    by_cases he : e.1 = k
    · rw [if_pos he, lookup_cons, lookup_cons]
      rw [if_neg (fun hh : k = k' => h hh.symm)]
      rw [if_neg (fun hh : e.1 = k' => h (he.symm.trans hh).symm)]
    · rw [if_neg he, lookup_cons, lookup_cons, ih]

theorem upsert_fresh {α : Type} {l : List (String × α)} {k : String} (v : α)
    (h : lookup l k = none) : upsert l k v = l ++ [(k, v)] := by
  induction l with
  | nil => rfl
  | cons e rest ih =>
    rw [lookup_cons] at h
    by_cases he : e.1 = k
    · rw [if_pos he] at h; cases h
    · rw [if_neg he] at h
      simp [upsert, he, ih h]

theorem filter_upsert {α : Type} (l : List (String × α)) (k : String) (v : α) :
    (upsert l k v).filter (fun e => e.1 ≠ k) = l.filter (fun e => e.1 ≠ k) := by
  induction l with
  | nil => simp [upsert]
  | cons e rest ih =>
    show ((if e.1 = k then (k, v) :: rest else e :: upsert rest k v).filter
        (fun e => e.1 ≠ k)) = (e :: rest).filter (fun e => e.1 ≠ k)
    by_cases h : e.1 = k
    · rw [if_pos h]
      rw [List.filter_cons_of_neg (by simp), List.filter_cons_of_neg (by simp [h])]
    · rw [if_neg h]
      rw [List.filter_cons_of_pos (by simp [h]), List.filter_cons_of_pos (by simp [h])]
      rw [ih]

theorem filter_ne_of_fresh {α : Type} {l : List (String × α)} {k : String}
    (h : lookup l k = none) : l.filter (fun e => e.1 ≠ k) = l := by
  induction l with
  | nil => rfl
  | cons e rest ih =>
    rw [lookup_cons] at h
    by_cases he : e.1 = k
    · rw [if_pos he] at h; cases h
    · rw [if_neg he] at h
      rw [List.filter_cons_of_pos (by simp [he]), ih h]

theorem lookup_eq_of_mem_nodup {α : Type} {l : List (String × α)}
    (hnd : (l.map Prod.fst).Nodup) {e : String × α} (he : e ∈ l) :
    lookup l e.1 = some e.2 := by
  induction l with
  | nil => cases he
  | cons x rest ih =>
    rw [List.map_cons, List.nodup_cons] at hnd
    rw [lookup_cons]
    rcases List.mem_cons.mp he with rfl | hm
    · rw [if_pos rfl]
    · by_cases hx : x.1 = e.1
      · exfalso
        exact hnd.1 (hx ▸ List.mem_map_of_mem Prod.fst hm)
      · rw [if_neg hx]
        exact ih hnd.2 hm

theorem save_job_eq (st : RedisState) (id : String) (j : Job) (now : Int) :
    save_job st id j now =
      { kv := upsert st.kv id
          { j with timestamp_numeric := TsField.num (repairedScore j.timestamp_numeric now) },
        zset := upsert st.zset id (repairedScore j.timestamp_numeric now),
        saves := st.saves ++ [(id, j.status)] } := by
  cases h : j.timestamp_numeric with
  | missing => simp [save_job, repairedScore, floatConvTs, h]
  | null => simp [save_job, repairedScore, floatConvTs, h]
  | num v => simp [save_job, repairedScore, floatConvTs, h]
  | str s =>
    cases hp : pyFloatOfString s with
    | none => simp [save_job, repairedScore, floatConvTs, h, hp]
    | some v => simp [save_job, repairedScore, floatConvTs, h, hp]

theorem get_job_save_self (st : RedisState) (id : String) (j : Job) (now : Int) :
    get_job (save_job st id j now) id =
      some { j with timestamp_numeric := TsField.num (repairedScore j.timestamp_numeric now) } := by
  rw [save_job_eq]
  unfold get_job
  exact lookup_upsert_self _ _ _

/-! ### Claim C8: the Save timestamp repair -/

/-- Claim C8 (amended): every `save_job` uses `repairedScore` for both the
ordering-index score and the persisted `timestamp_numeric`: a valid numeric
timestamp is used unchanged, and a missing, `None`, or non-numeric
timestamp is replaced directly by the current time — the `created_at`
field is never parsed (the `_get_timestamp` helper embedding that fallback
is defined in the source but not invoked by `save_job`). -/
theorem save_job_timestamp_repair (st : RedisState) (id : String) (j : Job)
    (now : Int) :
    lookup (save_job st id j now).zset id
      = some (repairedScore j.timestamp_numeric now) ∧
    get_job (save_job st id j now) id
      = some { j with timestamp_numeric := TsField.num (repairedScore j.timestamp_numeric now) } ∧
    (∀ v, j.timestamp_numeric = TsField.num v →
      repairedScore j.timestamp_numeric now = v) ∧
    (j.timestamp_numeric = TsField.missing ∨ j.timestamp_numeric = TsField.null →
      repairedScore j.timestamp_numeric now = now) ∧
    (∀ s, j.timestamp_numeric = TsField.str s → pyFloatOfString s = none →
      repairedScore j.timestamp_numeric now = now) := by
  refine ⟨?_, get_job_save_self st id j now, ?_, ?_, ?_⟩
  · rw [save_job_eq]
    exact lookup_upsert_self _ _ _
  · intro v hv
    simp [repairedScore, floatConvTs, hv]
  · intro hv
    rcases hv with hv | hv <;> simp [repairedScore, floatConvTs, hv]
  · intro sfield hv hp
    simp [repairedScore, floatConvTs, hv, hp]

/-- Witness for C8 (amended): a concrete save with a missing timestamp and
one with a valid numeric timestamp. -/
theorem save_job_timestamp_repair_witness :
    lookup (save_job emptyRedis "a" jobTsMissing 7).zset "a" = some 7 ∧
    lookup (save_job emptyRedis "b" jobTsNum3 7).zset "b" = some 3 := by
  constructor
  · have h := save_job_timestamp_repair emptyRedis "a" jobTsMissing 7
    have hr := h.2.2.2.1 (Or.inl rfl)
    rw [h.1, hr]
  · have h := save_job_timestamp_repair emptyRedis "b" jobTsNum3 7
    have hr := h.2.2.1 3 rfl
    rw [h.1, hr]

/-- Counterexample to C8 as stated: a job record with no numeric timestamp
but a parseable `created_at` is saved with the current time (1000) as its
ordering score, not the parsed `created_at` value (500) that the (dead)
`_get_timestamp` fallback would produce. -/
theorem save_job_no_created_at_fallback :
    lookup (save_job emptyRedis "j1" jobTsCreated 1000).zset "j1" = some 1000 ∧
    get_timestamp_fallback parseIsoW TsField.missing "2020-01-01T00:00:00" 1000 = 500 ∧
    (1000 : Int) ≠ 500 := by
  refine ⟨rfl, ?_, by decide⟩
  simp [get_timestamp_fallback, parseIsoW]

/-- Claim C9: the job listing is ordered by the numeric creation timestamp,
most recent first (given the invariant that stored timestamps match their
index scores and index members are unique), and saving a job under a fresh
id — whatever the state of its timestamp slot — leaves the sorted index
over the previously saved jobs exactly unchanged. -/
theorem get_all_jobs_ordering (st : RedisState)
    (hnd : (st.zset.map Prod.fst).Nodup) (hwf : TimestampsMatch st)
    (newId : String) (j : Job) (now : Int)
    (hfresh : lookup st.zset newId = none) :
    (get_all_jobs st).Pairwise
      (fun a b => tsNum b.timestamp_numeric ≤ tsNum a.timestamp_numeric) ∧
    (List.insertionSort zrevLe (save_job st newId j now).zset).filter
        (fun e => e.1 ≠ newId)
      = List.insertionSort zrevLe st.zset := by
  constructor
  · unfold get_all_jobs zrevrange_ids
    rw [List.filterMap_map]
    apply List.pairwise_filterMap.mpr
    have hsorted : (List.insertionSort zrevLe st.zset).Pairwise zrevLe :=
      List.sorted_insertionSort zrevLe st.zset
    apply List.Pairwise.imp_of_mem ?_ hsorted
    intro a b ha hb hab ja hja jb hjb
    have hamem : a ∈ st.zset := (List.perm_insertionSort zrevLe st.zset).mem_iff.mp ha
    have hbmem : b ∈ st.zset := (List.perm_insertionSort zrevLe st.zset).mem_iff.mp hb
    have hts : ∀ (e : String × Int), e ∈ st.zset →
        ∀ jx, get_job st e.1 = some jx → tsNum jx.timestamp_numeric = e.2 := by
      intro e he jx hjx
      unfold get_job lookup at hjx
      obtain ⟨entry, hfind, hsnd⟩ := Option.map_eq_some'.mp hjx
      have hentrymem := List.mem_of_find?_eq_some hfind
      have hpred := List.find?_some hfind
      rw [decide_eq_true_eq] at hpred
      have hwfe := hwf entry hentrymem
      unfold tsMatches at hwfe
      rw [hpred] at hwfe
      rw [lookup_eq_of_mem_nodup hnd he] at hwfe
      have := eq_of_beq hwfe
      rw [hsnd] at this
      rw [this]
      rfl
    have hda := hts a hamem ja hja
    have hdb := hts b hbmem jb hjb
    rw [hda, hdb]
    rcases hab with h | ⟨h, _⟩
    · exact le_of_lt h
    · exact le_of_eq h
  · have hzset : (save_job st newId j now).zset
        = st.zset ++ [(newId, repairedScore j.timestamp_numeric now)] := by
      rw [save_job_eq]
      exact upsert_fresh _ hfresh
    rw [hzset]
    have h1 : List.Perm
        ((List.insertionSort zrevLe
          (st.zset ++ [(newId, repairedScore j.timestamp_numeric now)])).filter
            (fun e => e.1 ≠ newId))
        ((st.zset ++ [(newId, repairedScore j.timestamp_numeric now)]).filter
            (fun e => e.1 ≠ newId)) :=
      (List.perm_insertionSort zrevLe _).filter _
    have h2 : (st.zset ++ [(newId, repairedScore j.timestamp_numeric now)]).filter
          (fun e => e.1 ≠ newId)
        = st.zset := by
      rw [List.filter_append, filter_ne_of_fresh hfresh]
      simp
    have hperm : List.Perm
        ((List.insertionSort zrevLe
          (st.zset ++ [(newId, repairedScore j.timestamp_numeric now)])).filter
            (fun e => e.1 ≠ newId))
        (List.insertionSort zrevLe st.zset) := by
      refine h1.trans ?_
      rw [h2]
      exact (List.perm_insertionSort zrevLe st.zset).symm
    have hs1 : List.Sorted zrevLe
        ((List.insertionSort zrevLe
          (st.zset ++ [(newId, repairedScore j.timestamp_numeric now)])).filter
            (fun e => e.1 ≠ newId)) :=
      (List.sorted_insertionSort zrevLe _).filter _
    have hs2 : List.Sorted zrevLe (List.insertionSort zrevLe st.zset) :=
      List.sorted_insertionSort zrevLe st.zset
    exact List.eq_of_perm_of_sorted hperm hs1 hs2

/-- Witness for C9: the ordering and stability facts at a concrete two-job
store and a fresh save with a missing timestamp. -/
theorem get_all_jobs_ordering_witness :
    (get_all_jobs st9).Pairwise
      (fun a b => tsNum b.timestamp_numeric ≤ tsNum a.timestamp_numeric) ∧
    (List.insertionSort zrevLe (save_job st9 "c" jobTsMissing 9).zset).filter
        (fun e => e.1 ≠ "c")
      = List.insertionSort zrevLe st9.zset :=
  get_all_jobs_ordering st9 (by decide)
    (show ∀ e ∈ st9.kv, tsMatches st9 e = true by decide) "c" jobTsMissing 9
    (by decide)

/-- Claim C2 (amended): retrying an unknown job id and retrying a job whose
status is not `failed` are both rejected with an HTTP 400 (`retry_job`
raises `ValueError` in both cases and the endpoint maps every `ValueError`
to 400 — an unknown job therefore yields 400, not 404), and the state is
left untouched; the retry is never silently ignored. -/
theorem retry_job_endpoint_rejections (sys : Sys) (jobId : String)
    (narr : Except String String) (audio : Except String AudioInfo)
    (scriptGen : Except String String) (nowIso : String) (now : Int) :
    (get_job sys.redis jobId = none →
      retry_job_endpoint sys jobId narr audio scriptGen nowIso now
        = (RetryResponse.httpError 400 "Job not found", sys)) ∧
    (∀ job, get_job sys.redis jobId = some job → job.status ≠ "failed" →
      retry_job_endpoint sys jobId narr audio scriptGen nowIso now
        = (RetryResponse.httpError 400
            ("Cannot retry job with status: " ++ job.status), sys)) := by
  constructor
  · intro h
    unfold retry_job_endpoint retry_job
    rw [h]
  · intro job h hs
    unfold retry_job_endpoint retry_job
    rw [h]
    simp only [if_pos hs]

/-- Witness for C2 (amended): concrete rejections of an unknown job and of
a pending (non-failed) job. -/
theorem retry_job_endpoint_rejections_witness :
    retry_job_endpoint emptySys "nope" (Except.ok "n") (Except.ok ainfoW)
        (Except.ok "s") "t0" 0
      = (RetryResponse.httpError 400 "Job not found", emptySys) ∧
    retry_job_endpoint { redis := save_job emptyRedis "a" jobTsMissing 7 } "a"
        (Except.ok "n") (Except.ok ainfoW) (Except.ok "s") "t0" 0
      = (RetryResponse.httpError 400 "Cannot retry job with status: pending",
         { redis := save_job emptyRedis "a" jobTsMissing 7 }) := by
  constructor
  · exact (retry_job_endpoint_rejections emptySys "nope" (Except.ok "n")
      (Except.ok ainfoW) (Except.ok "s") "t0" 0).1 rfl
  · exact (retry_job_endpoint_rejections
      { redis := save_job emptyRedis "a" jobTsMissing 7 } "a" (Except.ok "n")
      (Except.ok ainfoW) (Except.ok "s") "t0" 0).2
      { jobTsMissing with timestamp_numeric := TsField.num 7 } (by rfl) (by decide)

/-- Counterexample to C2 as stated: retrying an unknown job id produces
HTTP 400, never a 404. -/
theorem retry_unknown_job_gives_400 :
    (retry_job_endpoint emptySys "nope" (Except.ok "n") (Except.ok ainfoW)
        (Except.ok "s") "t0" 0).1
      = RetryResponse.httpError 400 "Job not found" ∧
    ∀ d : String,
      (retry_job_endpoint emptySys "nope" (Except.ok "n") (Except.ok ainfoW)
          (Except.ok "s") "t0" 0).1
        ≠ RetryResponse.httpError 404 d := by
  constructor
  · rfl
  · intro d h
    have h' : RetryResponse.httpError 400 "Job not found"
        = RetryResponse.httpError 404 d := h
    injection h' with h1 _
    exact absurd h1 (by decide)

/-- Claim C7 (amended): a successful retry of a failed job resets the
status to `generating_narration` (first persisted snapshot) and clears
`error`, re-runs stages 1-3 with the job's stored request parameters,
writes the new script artifact to the same path
`{job_id}_{class_name}.py` — overwriting the previous artifact's content
in place rather than leaving it intact — and leaves the job `pending`. -/
theorem retry_job_effects (sys : Sys) (jobId : String) (job : Job)
    (narrText : String) (ainfo : AudioInfo) (script : String)
    (nowIso : String) (now : Int) (res : Except PyErr CreateResult) (sys' : Sys)
    (hjob : get_job sys.redis jobId = some job)
    (hfailed : job.status = "failed")
    (hout : retry_job sys jobId (Except.ok narrText) (Except.ok ainfo)
      (Except.ok script) nowIso now = (res, sys')) :
    (∃ r, res = Except.ok r ∧
      r.script_path = jobId ++ "_" ++ sanitizeClassNameStr job.topic ++ ".py" ∧
      r.script = script) ∧
    lookup sys'.scripts (jobId ++ "_" ++ sanitizeClassNameStr job.topic ++ ".py")
      = some script ∧
    (get_job sys'.redis jobId).map Job.status = some "pending" ∧
    (get_job sys'.redis jobId).map Job.error = some none ∧
    sys'.redis.saves = sys.redis.saves ++
      [(jobId, "generating_narration"), (jobId, "pending")] ∧
    sys'.calls = sys.calls ++
      [StageCall.narrText job.topic job.subject job.chapter job.level,
       StageCall.narrAudio narrText jobId,
       StageCall.scriptGen job.topic job.subject job.chapter job.level
         ainfo.audio_path ainfo.duration] := by
  unfold retry_job at hout
  rw [hjob] at hout
  simp only [ne_eq, hfailed, not_true_eq_false, if_false, ite_false,
    Bool.false_eq_true] at hout
  rw [Prod.ext_iff] at hout
  obtain ⟨hres, hsys⟩ := hout
  subst hres
  subst hsys
  refine ⟨⟨_, rfl, rfl, rfl⟩, ?_, ?_, ?_, ?_, ?_⟩
  · exact lookup_upsert_self _ _ _
  · rw [get_job_save_self]
    rfl
  · rw [get_job_save_self]
    rfl
  · simp [save_job_eq, List.append_assoc]
  · simp [List.append_assoc]

/-- Witness for C7 (amended): the effects at a concrete failed job. -/
theorem retry_job_effects_witness :
    (get_job (retry_job sysRetryW "J" (Except.ok "n") (Except.ok ainfoW)
        (Except.ok "NEW") "t1" 2).2.redis "J").map Job.status = some "pending" ∧
    lookup (retry_job sysRetryW "J" (Except.ok "n") (Except.ok ainfoW)
        (Except.ok "NEW") "t1" 2).2.scripts
      ("J" ++ "_" ++ sanitizeClassNameStr "Topic" ++ ".py") = some "NEW" := by
  have h := retry_job_effects sysRetryW "J" jobFailedW "n" ainfoW "NEW" "t1" 2
    (retry_job sysRetryW "J" (Except.ok "n") (Except.ok ainfoW)
      (Except.ok "NEW") "t1" 2).1
    (retry_job sysRetryW "J" (Except.ok "n") (Except.ok ainfoW)
      (Except.ok "NEW") "t1" 2).2
    rfl rfl rfl
  exact ⟨h.2.2.1, h.2.1⟩

/-- Counterexample to C7 as stated: after the retry, the file at the
script-artifact path holds the newly generated script; the previous
artifact's content is gone (the path is identical across runs, so the
`open(..., 'w')` overwrites it). -/
theorem retry_overwrites_previous_script :
    lookup (retry_job sysRetryW "J" (Except.ok "n") (Except.ok ainfoW)
        (Except.ok "NEW") "t1" 2).2.scripts "J_TopicScene.py" = some "NEW" ∧
    lookup sysRetryW.scripts "J_TopicScene.py" = some "OLD" ∧
    (some "NEW" : Option String) ≠ some "OLD" := by
  refine ⟨?_, rfl, by decide⟩
  rfl

/-! ### Claim C3: terminal transitions and the Cache Index -/

theorem update_animation_status_sets {db : List AnimRow} {jobId status : String}
    {vn af : Option String} {ad : Option Int} {nowIso : String} :
    ∀ r ∈ update_animation_status db jobId status vn af ad nowIso,
      r.job_id = jobId → r.status = status := by
  intro r hr hid
  unfold update_animation_status at hr
  rw [List.mem_map] at hr
  obtain ⟨r0, hr0, rfl⟩ := hr
  by_cases h : (r0.job_id == jobId) = true
  · rw [if_pos h] at hid ⊢
    split
    · rfl
    · split <;> rfl
  · rw [if_neg h] at hid
    exact absurd (beq_iff_eq.mpr hid) h

/-- Claim C3 (amended): in the render executor every terminal transition
(non-zero exit, missing artifact, timeout — all `failed` — and artifact
found — `completed`) updates the Cache Index row of the job, but the
pipeline-stage failure path of `create_animation_job` persists the `failed`
job only to the job store and the file mirror: the `animations` table is
left exactly unchanged (no row exists for the job yet at that point). -/
theorem terminal_transitions_cache_index (sys : Sys) (jobId cn : String)
    (nowIso : String) (now : Int) :
    (∀ (j : Job) (rc : Int) (out err : String) (sys₂ : Sys),
      get_job sys.redis jobId = some j → rc ≠ 0 →
      render_animation sys jobId cn (ProcOutcome.exited rc out err) nowIso now = sys₂ →
      ∀ r ∈ sys₂.db, r.job_id = jobId → r.status = "failed") ∧
    (∀ (j : Job) (out err : String) (sys₂ : Sys),
      get_job sys.redis jobId = some j →
      find_video_file sys.mediaExists sys.media (cn ++ ".mp4") = none →
      render_animation sys jobId cn (ProcOutcome.exited 0 out err) nowIso now = sys₂ →
      ∀ r ∈ sys₂.db, r.job_id = jobId → r.status = "failed") ∧
    (∀ (j : Job) (sys₂ : Sys),
      get_job sys.redis jobId = some j →
      render_animation sys jobId cn ProcOutcome.timedOut nowIso now = sys₂ →
      ∀ r ∈ sys₂.db, r.job_id = jobId → r.status = "failed") ∧
    (∀ (j : Job) (out err : String) (f : MFile) (sys₂ : Sys),
      get_job sys.redis jobId = some j →
      find_video_file sys.mediaExists sys.media (cn ++ ".mp4") = some f →
      render_animation sys jobId cn (ProcOutcome.exited 0 out err) nowIso now = sys₂ →
      ∀ r ∈ sys₂.db, r.job_id = jobId → r.status = "completed") ∧
    (∀ (topic : String) (topic_id : Int) (subject : String) (subject_id : Int)
        (chapter : String) (chapter_id : Int) (level : Int)
        (narr : Except String String) (audio : Except String AudioInfo)
        (scriptGen : Except String String) (e : String)
        (res : Except String CreateResult) (sys₂ : Sys),
      create_animation_job sys topic topic_id subject subject_id chapter
          chapter_id level jobId narr audio scriptGen nowIso now = (res, sys₂) →
      res = Except.error e → sys₂.db = sys.db) := by
  refine ⟨?_, ?_, ?_, ?_, ?_⟩
  · intro j rc out err sys₂ hjob hrc hout
    unfold render_animation at hout
    rw [hjob] at hout
    simp only [] at hout
    rw [if_pos hrc] at hout
    subst hout
    exact update_animation_status_sets
  · intro j out err sys₂ hjob hfind hout
    unfold render_animation at hout
    rw [hjob] at hout
    simp only [ne_eq, not_true_eq_false, if_false, ite_false] at hout
    rw [hfind] at hout
    simp only [] at hout
    subst hout
    exact update_animation_status_sets
  · intro j sys₂ hjob hout
    unfold render_animation at hout
    rw [hjob] at hout
    simp only [] at hout
    rw [get_job_save_self] at hout
    simp only [] at hout
    subst hout
    exact update_animation_status_sets
  · intro j out err f sys₂ hjob hfind hout
    unfold render_animation at hout
    rw [hjob] at hout
    simp only [ne_eq, not_true_eq_false, if_false, ite_false] at hout
    rw [hfind] at hout
    simp only [] at hout
    subst hout
    exact update_animation_status_sets
  · intro topic topic_id subject subject_id chapter chapter_id level narr audio
      scriptGen e res sys₂ hout hres
    cases narr with
    | error e' =>
      have h2 : (create_animation_job sys topic topic_id subject subject_id chapter
          chapter_id level jobId (Except.error e') audio scriptGen nowIso now).2
          = sys₂ := by rw [hout]
      rw [← h2]
      rfl
    | ok nt =>
      cases audio with
      | error e' =>
        have h2 : (create_animation_job sys topic topic_id subject subject_id chapter
            chapter_id level jobId (Except.ok nt) (Except.error e') scriptGen nowIso now).2
            = sys₂ := by rw [hout]
        rw [← h2]
        rfl
      | ok ainfo =>
        cases scriptGen with
        | error e' =>
          have h2 : (create_animation_job sys topic topic_id subject subject_id chapter
              chapter_id level jobId (Except.ok nt) (Except.ok ainfo) (Except.error e')
              nowIso now).2 = sys₂ := by rw [hout]
          rw [← h2]
          rfl
        | ok script =>
          have h1 : (create_animation_job sys topic topic_id subject subject_id chapter
              chapter_id level jobId (Except.ok nt) (Except.ok ainfo) (Except.ok script)
              nowIso now).1 = res := by rw [hout]
          rw [hres] at h1
          have h3 : (Except.ok
              { job_id := jobId, script := script,
                script_path := jobId ++ "_" ++ sanitizeClassNameStr topic ++ ".py",
                class_name := sanitizeClassNameStr topic, narration_text := nt,
                audio_duration := ainfo.duration } : Except String CreateResult)
              = Except.error e := h1
          cases h3

/-- Witness for C3 (amended): a concrete render timeout updates the cache
row status, while a concrete stage-1 failure leaves the table untouched. -/
theorem terminal_transitions_cache_index_witness :
    (∀ r ∈ (render_animation sysRetryW "J" "TopicScene" ProcOutcome.timedOut "t1" 2).db,
      r.job_id = "J" → r.status = "failed") ∧
    (create_animation_job emptySys "T" 1 "S" 2 "C" 3 4 "J" (Except.error "boom")
        (Except.ok ainfoW) (Except.ok "s") "t0" 100).2.db = emptySys.db := by
  constructor
  · exact (terminal_transitions_cache_index sysRetryW "J" "TopicScene" "t1" 2).2.2.1
      jobFailedW _ rfl rfl
  · exact (terminal_transitions_cache_index emptySys "J" "cn" "t0" 100).2.2.2.2
      "T" 1 "S" 2 "C" 3 4 (Except.error "boom") (Except.ok ainfoW) (Except.ok "s")
      "boom" _ _ rfl rfl

/-- Counterexample to C3 as stated: a stage failure during job creation
sets the job to `failed` in the job store, yet the Cache Index is not
updated — the table stays empty and has no row for the job. -/
theorem create_failure_cache_untouched :
    (create_animation_job emptySys "T" 1 "S" 2 "C" 3 4 "J" (Except.error "boom")
        (Except.ok ainfoW) (Except.ok "s") "t0" 100).2.db = [] ∧
    get_animation_by_job_id
      (create_animation_job emptySys "T" 1 "S" 2 "C" 3 4 "J" (Except.error "boom")
        (Except.ok ainfoW) (Except.ok "s") "t0" 100).2.db "J" = none ∧
    (get_job (create_animation_job emptySys "T" 1 "S" 2 "C" 3 4 "J"
        (Except.error "boom") (Except.ok ainfoW) (Except.ok "s") "t0" 100).2.redis
      "J").map Job.status = some "failed" :=
  ⟨rfl, rfl, rfl⟩

/-! ### Claim C5: missing artifact after a clean render -/

/-- Claim C5: when the render subprocess exits 0 but the case-insensitive
recursive search of the media tree finds no `{class_name}.mp4`, the job is
transitioned to `failed` with the descriptive `Expected: ...` error, never
to `completed`. -/
theorem render_missing_artifact_fails (sys : Sys) (jobId cn : String)
    (j : Job) (out err nowIso : String) (now : Int) (sys₂ : Sys)
    (hjob : get_job sys.redis jobId = some j)
    (hfind : find_video_file sys.mediaExists sys.media (cn ++ ".mp4") = none)
    (hout : render_animation sys jobId cn (ProcOutcome.exited 0 out err) nowIso now
      = sys₂) :
    (get_job sys₂.redis jobId).map Job.status = some "failed" ∧
    (get_job sys₂.redis jobId).map Job.error
      = some (some ("Expected: " ++ cn ++ ".mp4")) ∧
    (get_job sys₂.redis jobId).map Job.status ≠ some "completed" := by
  unfold render_animation at hout
  rw [hjob] at hout
  simp only [ne_eq, not_true_eq_false, if_false, ite_false] at hout
  rw [hfind] at hout
  simp only [] at hout
  subst hout
  refine ⟨?_, ?_, ?_⟩
  · rw [get_job_save_self]
    rfl
  · rw [get_job_save_self]
    rfl
  · rw [get_job_save_self]
    simp

/-- Witness for C5: a concrete clean exit with an empty media tree leaves
the job `failed`. -/
theorem render_missing_artifact_fails_witness :
    (get_job (render_animation sysRetryW "J" "TopicScene"
        (ProcOutcome.exited 0 "" "") "t1" 2).redis "J").map Job.status
      = some "failed" ∧
    (get_job (render_animation sysRetryW "J" "TopicScene"
        (ProcOutcome.exited 0 "" "") "t1" 2).redis "J").map Job.error
      = some (some "Expected: TopicScene.mp4") := by
  have h := render_missing_artifact_fails sysRetryW "J" "TopicScene" jobFailedW
    "" "" "t1" 2 _ rfl rfl rfl
  exact ⟨h.1, h.2.1⟩

/-- Claim C1: when the animations table has a `completed` row for the
request tuple, the creation endpoint answers `cached: true` with that row's
job id and leaves the entire system state — including the ghost log of
stage invocations — untouched; a row in any other status is a cache miss
(`check_existing_animation` returns nothing even though the row exists). -/
theorem generate_animation_cache (sys : Sys) (req : AnimReq)
    (apiKeyConfigured redisPing : Bool) (jobId : String)
    (narr : Except String String) (audio : Except String AudioInfo)
    (scriptGen : Except String String) (nowIso : String) (now : Int)
    (resolve : List String → List String) :
    (∀ row, check_existing_animation sys.db req.level req.subject_id
        req.chapter_id req.topic_id = some row →
      row.status = "completed" ∧
      (∃ st vn vu sc tp,
        (generate_animation sys req apiKeyConfigured redisPing jobId narr audio
          scriptGen nowIso now resolve).1
          = GenResult.cachedResp row.job_id st vn vu sc tp) ∧
      (generate_animation sys req apiKeyConfigured redisPing jobId narr audio
        scriptGen nowIso now resolve).2 = sys) ∧
    ((∀ row ∈ sys.db, tupleMatches row req.level req.subject_id req.chapter_id
        req.topic_id = true → row.status ≠ "completed") →
      check_existing_animation sys.db req.level req.subject_id req.chapter_id
        req.topic_id = none) := by
  constructor
  · intro row hrow
    refine ⟨?_, ?_, ?_⟩
    · have hp := List.find?_some hrow
      rw [Bool.and_eq_true] at hp
      exact eq_of_beq hp.2
    · unfold generate_animation
      rw [hrow]
      exact ⟨_, _, _, _, _, rfl⟩
    · unfold generate_animation
      rw [hrow]
  · intro h
    unfold check_existing_animation
    rw [List.find?_eq_none]
    intro r hr
    by_cases ht : tupleMatches r req.level req.subject_id req.chapter_id
        req.topic_id = true
    · have hst := h r hr ht
      simp [ht, hst]
    · simp [Bool.and_eq_true, ht]

/-- Witness for C1: the concrete completed row is served from cache with
the state untouched, and the concrete pending row is a miss. -/
theorem generate_animation_cache_witness :
    (generate_animation sysCached reqW true true "J2" (Except.ok "n")
        (Except.ok ainfoW) (Except.ok "s") "t1" 5 (fun l => l)).2 = sysCached ∧
    check_existing_animation sysPending.db 4 2 3 1 = none := by
  constructor
  · exact ((generate_animation_cache sysCached reqW true true "J2" (Except.ok "n")
      (Except.ok ainfoW) (Except.ok "s") "t1" 5 (fun l => l)).1 rowCompleted
      rfl).2.2
  · exact (generate_animation_cache sysPending reqW true true "J2" (Except.ok "n")
      (Except.ok ainfoW) (Except.ok "s") "t1" 5 (fun l => l)).2 (by decide)

/-! ### Claim C4: video path security -/

theorem find_video_file_mem {mediaExists : Bool} {media : List MFile}
    {fn : String} {f : MFile}
    (h : find_video_file mediaExists media fn = some f) :
    f ∈ media ∧ f.isFile = true := by
  unfold find_video_file at h
  by_cases hm : mediaExists = false
  · rw [if_pos hm] at h
    cases h
  · rw [if_neg hm] at h
    refine ⟨List.mem_of_find?_eq_some h, ?_⟩
    have hp := List.find?_some h
    rw [Bool.and_eq_true] at hp
    exact hp.1

theorem resolveVideoName_error_shape (sys : Sys) (jobId : String) :
    ∀ r, resolveVideoName sys jobId = Except.error r →
      ∃ c d, r = VideoResult.httpError c d := by
  intro r h
  unfold resolveVideoName at h
  cases hg : get_job sys.redis jobId with
  | none =>
    rw [hg] at h
    simp only [] at h
    cases hd : get_animation_by_job_id sys.db jobId with
    | some row =>
      rw [hd] at h
      simp only [] at h
      by_cases hc : row.status = "completed"
      · rw [if_pos hc] at h
        cases h
      · rw [if_neg hc] at h
        injection h with h1
        exact ⟨404, "Job not found", h1.symm⟩
    | none =>
      rw [hd] at h
      simp only [] at h
      injection h with h1
      exact ⟨404, "Job not found", h1.symm⟩
  | some job =>
    rw [hg] at h
    simp only [] at h
    by_cases hc : job.status ≠ "completed"
    · rw [if_pos hc] at h
      injection h with h1
      exact ⟨400, "Video not ready. Job status: " ++ job.status, h1.symm⟩
    · rw [if_neg hc] at h
      cases h

/-- Claim C4: a video is only ever streamed (or linked) when the resolved
path of the located file lies strictly inside the resolved media root, and
whenever the resolved path escapes the media root the request is rejected
with HTTP 403 `Access denied`.  The hypothesis `hfs` is the filesystem
fact that a regular file never resolves to the media-root directory
itself. -/
theorem video_path_security (sys : Sys) (jobId : String)
    (resolve : List String → List String)
    (hfs : ∀ f ∈ sys.media, f.isFile = true →
      resolve f.path ≠ resolve sys.mediaRoot) :
    (∀ p fn, download_video sys jobId resolve = VideoResult.fileStream p fn →
      (resolve sys.mediaRoot).isPrefixOf (resolve p) = true ∧
      resolve p ≠ resolve sys.mediaRoot) ∧
    (∀ jid vn vu stx, get_video_by_job sys jobId resolve
        = VideoResult.videoUrl jid vn vu stx →
      ∃ f, find_video_file sys.mediaExists sys.media vn = some f ∧
        (resolve sys.mediaRoot).isPrefixOf (resolve f.path) = true ∧
        resolve f.path ≠ resolve sys.mediaRoot) ∧
    (∀ (vn : String) (f : MFile),
      resolveVideoName sys jobId = Except.ok (some vn) → vn ≠ "" →
      find_video_file sys.mediaExists sys.media vn = some f →
      (resolve sys.mediaRoot).isPrefixOf (resolve f.path) = false →
      download_video sys jobId resolve = VideoResult.httpError 403 "Access denied" ∧
      get_video_by_job sys jobId resolve
        = VideoResult.httpError 403 "Access denied") := by
  refine ⟨?_, ?_, ?_⟩
  · intro p fn h
    unfold download_video at h
    cases hv : resolveVideoName sys jobId with
    | error r =>
      rw [hv] at h
      simp only [] at h
      obtain ⟨c, d, rfl⟩ := resolveVideoName_error_shape sys jobId r hv
      cases h
    | ok vnOpt =>
      rw [hv] at h
      simp only [] at h
      cases vnOpt with
      | none => cases h
      | some vn =>
        simp only [] at h
        by_cases hvn : vn = ""
        · rw [if_pos hvn] at h
          cases h
        · rw [if_neg hvn] at h
          cases hf : find_video_file sys.mediaExists sys.media vn with
          | none =>
            rw [hf] at h
            simp only [] at h
            cases h
          | some f =>
            rw [hf] at h
            simp only [] at h
            by_cases hpre : (resolve sys.mediaRoot).isPrefixOf (resolve f.path) = true
            · rw [if_pos hpre] at h
              injection h with h1 h2
              obtain ⟨hmem, hfile⟩ := find_video_file_mem hf
              subst h1
              exact ⟨hpre, hfs f hmem hfile⟩
            · rw [if_neg hpre] at h
              cases h
  · intro jid vn vu stx h
    unfold get_video_by_job at h
    cases hv : resolveVideoName sys jobId with
    | error r =>
      rw [hv] at h
      simp only [] at h
      obtain ⟨c, d, rfl⟩ := resolveVideoName_error_shape sys jobId r hv
      cases h
    | ok vnOpt =>
      rw [hv] at h
      simp only [] at h
      cases vnOpt with
      | none => cases h
      | some vn0 =>
        simp only [] at h
        by_cases hvn : vn0 = ""
        · rw [if_pos hvn] at h
          cases h
        · rw [if_neg hvn] at h
          cases hf : find_video_file sys.mediaExists sys.media vn0 with
          | none =>
            rw [hf] at h
            simp only [] at h
            cases h
          | some f =>
            rw [hf] at h
            simp only [] at h
            by_cases hpre : (resolve sys.mediaRoot).isPrefixOf (resolve f.path) = true
            · rw [if_pos hpre] at h
              injection h with h1 h2
              obtain ⟨hmem, hfile⟩ := find_video_file_mem hf
              subst h2
              exact ⟨f, hf, hpre, hfs f hmem hfile⟩
            · rw [if_neg hpre] at h
              cases h
  · intro vn f hok hvn hf hpre
    constructor
    · unfold download_video
      rw [hok]
      simp only [] 
      rw [if_neg hvn, hf]
      simp only [hpre, Bool.false_eq_true, if_false, ite_false]
    · unfold get_video_by_job
      rw [hok]
      simp only []
      rw [if_neg hvn, hf]
      simp only [hpre, Bool.false_eq_true, if_false, ite_false]

/-- Witness for C4: with the identity resolver the streamed file is
strictly inside the media root; with a resolver that sends the file outside
the root, the download is rejected with 403. -/
theorem video_path_security_witness :
    ((["m"] : List String).isPrefixOf ["m", "V.mp4"] = true ∧
      (["m", "V.mp4"] : List String) ≠ ["m"]) ∧
    download_video sysVideo "JV" resolveOutW
      = VideoResult.httpError 403 "Access denied" := by
  constructor
  · exact (video_path_security sysVideo "JV" (fun l => l) (by decide)).1
      ["m", "V.mp4"] "V.mp4" (by rfl)
  · exact ((video_path_security sysVideo "JV" resolveOutW (by decide)).2.2
      "V.mp4" mfileW (by rfl) (by decide) (by rfl) (by rfl)).1

end ManimPro
